import Mathlib

/-!
Verification development for the telephony session orchestrator of
`python/samples/wrapper_agent_example/_wrapper_agent.py` (class `WrapperAgent`).

The Python code is shallowly embedded as pure Lean functions:

* the per-session mutable dictionaries of the agent
  (`active_websocket_sessions`, `websocket_connections`,
  `conversation_histories`, `session_contexts`) become association lists in
  an explicit `AgentState` record threaded through every operation;
* awaited external capabilities (MCP tool calls, the SSE byte stream, the
  model client, `ws.send`/`ws.recv`) are replaced by oracles carried on the
  inbound events: each event records what the external world returned, and
  the embedded function computes exactly the control flow the Python code
  takes on those values;
* observable actions (UI publishes, tool invocations, outbound frames,
  stream closes, history appends, summarizer model calls, task spawns,
  cleanup invocations) are recorded in an `Effect` trace returned alongside
  the new state.

Machine-level aspects that no claim observes (UTF-8 byte positions, exact
timestamps, the `agent_history` response patch-up on summary success, the
token-by-token pacing inside `_publish_to_ui`) are collapsed to the level
at which the claims speak: a call to `_publish_to_ui` is one
`Effect.publishUI` entry.
-/

/-- Characters of the regex class `[,.!?]` in `_detect_sentence_end`. -/
def isSentencePunct (c : Char) : Bool :=
  c = ',' || c = '.' || c = '!' || c = '?'

/-- ASCII fragment of the Python regex class `\s` (the inputs handled by the
agent are ASCII; the Unicode extension of `\s` is not modelled). -/
def pyIsSpace (c : Char) : Bool :=
  c = ' ' || c = '\t' || c = '\n' || c = '\r' || c = '\x0b' || c = '\x0c'

/-- `re.search(r'[,.!?]\s*$', text)` succeeds iff some position of the text
holds a sentence-ending punctuation character followed only by whitespace up
to the end of the string.  This is the search semantics of the anchored
pattern, position by position. -/
def searchPunctThenSpaces : List Char → Bool
  | [] => false
  | c :: rest => (isSentencePunct c && rest.all pyIsSpace) || searchPunctThenSpaces rest

/-- `WrapperAgent._detect_sentence_end` (line 429): `bool(re.search(r'[,.!?]\s*$', text))`. -/
def detect_sentence_end (s : String) : Bool :=
  searchPunctThenSpaces s.data

/-- Python `str.strip()` on the characters of `pyIsSpace`. -/
def pyStripList (l : List Char) : List Char :=
  ((l.dropWhile pyIsSpace).reverse.dropWhile pyIsSpace).reverse

/-- Python `str.strip()`. -/
def pyStrip (s : String) : String :=
  String.mk (pyStripList s.data)

/-- Python slicing `s[:n]` by code points (used for `session_id[:8]`). -/
def takeChars (n : Nat) (s : String) : String :=
  String.mk (s.data.take n)

/-- Concatenation of a list of strings (accumulation order of `+=`). -/
def concatS : List String → String
  | [] => ""
  | s :: rest => s ++ concatS rest

section AssocHelpers

variable {α : Type}

/-- Key lookup in an association list (Python `dict.get`; dict keys are unique). -/
def lookupA : List (String × α) → String → Option α
  | [], _ => none
  | (k, v) :: rest, key => if k = key then some v else lookupA rest key

/-- Key removal from an association list (Python `del d[k]`). -/
def eraseA : List (String × α) → String → List (String × α)
  | [], _ => []
  | (k, v) :: rest, key => if k = key then eraseA rest key else (k, v) :: eraseA rest key

/-- Key insertion / overwrite (Python `d[k] = v`; only the key set and the
value at each key matter, not dict ordering). -/
def insertA (l : List (String × α)) (key : String) (v : α) : List (String × α) :=
  (key, v) :: eraseA l key

/-- In-place update of the value at a key, a no-op when the key is absent
(a field write through an object reference). -/
def updateA : List (String × α) → String → α → List (String × α)
  | [], _, _ => []
  | (k, x) :: rest, key, v => if k = key then (k, v) :: rest else (k, x) :: updateA rest key v

/-- Membership in a list of keys (Python `k in d` on the registry). -/
def containsS : List String → String → Bool
  | [], _ => false
  | k :: rest, key => if k = key then true else containsS rest key

/-- Key removal from a list of keys. -/
def eraseS : List String → String → List String
  | [], _ => []
  | k :: rest, key => if k = key then eraseS rest key else k :: eraseS rest key

@[simp] theorem lookupA_nil (key : String) : lookupA ([] : List (String × α)) key = none := rfl

theorem lookupA_eraseA_self (l : List (String × α)) (key : String) :
    lookupA (eraseA l key) key = none := by
  induction l with
  | nil => simp [eraseA]
  | cons p rest ih =>
    obtain ⟨k, v⟩ := p
    by_cases h : k = key <;> simp [eraseA, lookupA, h, ih]

theorem lookupA_eraseA_ne (l : List (String × α)) (key k' : String) (h : k' ≠ key) :
    lookupA (eraseA l key) k' = lookupA l k' := by
  induction l with
  | nil => simp [eraseA]
  | cons p rest ih =>
    obtain ⟨k, v⟩ := p
    by_cases hk : k = key
    · subst hk
      have hkk' : k ≠ k' := fun hh => h hh.symm
      simp [eraseA, lookupA, hkk', ih]
    · by_cases hk' : k = k' <;> simp [eraseA, lookupA, hk, hk', h, ih]

theorem eraseA_of_lookup_none (l : List (String × α)) (key : String)
    (h : lookupA l key = none) : eraseA l key = l := by
  induction l with
  | nil => rfl
  | cons p rest ih =>
    obtain ⟨k, v⟩ := p
    by_cases hk : k = key
    · simp [lookupA, hk] at h
    · simp [lookupA, hk] at h
      simp [eraseA, hk, ih h]

theorem lookupA_insertA_self (l : List (String × α)) (key : String) (v : α) :
    lookupA (insertA l key v) key = some v := by
  simp [insertA, lookupA]

theorem lookupA_insertA_ne (l : List (String × α)) (key k' : String) (v : α) (h : k' ≠ key) :
    lookupA (insertA l key v) k' = lookupA l k' := by
  have hkk' : key ≠ k' := fun hh => h hh.symm
  simp [insertA, lookupA, hkk', lookupA_eraseA_ne l key k' h]

theorem lookupA_updateA_self (l : List (String × α)) (key : String) (v : α) :
    lookupA (updateA l key v) key = (lookupA l key).map (fun _ => v) := by
  induction l with
  | nil => simp [updateA]
  | cons p rest ih =>
    obtain ⟨k, x⟩ := p
    by_cases hk : k = key <;> simp [updateA, lookupA, hk, ih]

theorem lookupA_updateA_ne (l : List (String × α)) (key k' : String) (v : α) (h : k' ≠ key) :
    lookupA (updateA l key v) k' = lookupA l k' := by
  induction l with
  | nil => simp [updateA]
  | cons p rest ih =>
    obtain ⟨k, x⟩ := p
    by_cases hk : k = key
    · subst hk
      have hkk' : k ≠ k' := fun hh => h hh.symm
      simp [updateA, lookupA, hkk', ih]
    · by_cases hk' : k = k' <;> simp [updateA, lookupA, hk, hk', h, ih]

theorem containsS_eraseS_self (l : List String) (key : String) :
    containsS (eraseS l key) key = false := by
  induction l with
  | nil => rfl
  | cons k rest ih =>
    by_cases hk : k = key <;> simp [eraseS, containsS, hk, ih]

end AssocHelpers

/-! ## Data model

`AgentState` packages the mutable per-session bookkeeping of `WrapperAgent`
(`__init__`, lines 51-57).  A `WebSocketSession` object is identified by its
`session_id`; since only its `is_active` field is ever mutated or read by the
orchestration code, the object heap is modelled as the `flags` association
list (one cell per ever-created session object) while `registry` holds the
key set of `active_websocket_sessions`.  A dispatcher that obtained the
object before its registry entry was deleted still reads and writes the same
`flags` cell — exactly the Python aliasing. -/

/-- One entry of a `conversation_histories` list: `{"role": ..., "content": ...}`. -/
structure Turn where
  role : String
  content : String
deriving DecidableEq

/-- One entry of `agent_history` (only the fields the orchestrator writes). -/
structure AgentHistEntry where
  kind : String
  input : String
  response : Option String
  session : Option String
deriving DecidableEq

/-- The mutable state of `WrapperAgent`. `connections` maps a session id to
the transport state of its stored websocket: `true` while the peer still
accepts sends, `false` once a send would raise a connection-closed error. -/
structure AgentState where
  registry : List String
  flags : List (String × Bool)
  connections : List (String × Bool)
  histories : List (String × List Turn)
  contexts : List (String × String)
  agent_history : List AgentHistEntry
deriving DecidableEq

/-- Observable actions of the agent, in program order. -/
inductive Effect where
  | publishUI (source content : String)
  | toolCall (tool : String)
  | wsSend (sid msgType text accText : String)
  | wsClose (sid : String)
  | appendTurn (sid : String) (turn : Turn)
  | modelCreate (sid : String) (snapshot : List Turn)
  | spawnTask (sid : String)
  | cleanupRun (sid : String)
deriving DecidableEq

/-- `self.active_websocket_sessions.get(session_id)`, reduced to the only
field the callers consult: `some is_active` when the registry holds the id. -/
def AgentState.sessionActive (st : AgentState) (sid : String) : Option Bool :=
  if containsS st.registry sid then lookupA st.flags sid else none

/-- `session.is_active = b` through an object reference (no-op on a never-created id). -/
def AgentState.setFlag (st : AgentState) (sid : String) (b : Bool) : AgentState :=
  { st with flags := updateA st.flags sid b }

/-! ## External-world oracles

Each awaited external interaction is replaced by a value recording what the
outside world answered; the embedding then follows the Python control flow
on that answer. -/

/-- Parsed events of a `text/event-stream` reply (`event: chunk|error|completed`
with their `data:` payloads).  The byte-level line reassembly of the SSE
parser is below the level of every claim; the stream is modelled as the
sequence of events it parses, and a terminal `error`/`completed` marker ends
the transport (the server closes the stream after it). -/
inductive SSEEvent where
  | chunk (text : String)
  | errorEv (msg : String)
  | completed
deriving DecidableEq

/-- Outcome of the `transcribe_audio` tool call, after JSON parsing:
`toolError` is `result.is_error`, `parseError` a `json.loads` failure
(caught by the outer handler), `reply status text` the parsed object. -/
inductive TranscribeReply where
  | toolError
  | parseError
  | reply (status : String) (text : String)
deriving DecidableEq

/-- Outcome of the `ask_ai_agent` tool call plus the SSE connection it points
to: `reply status stream_url httpStatus events`.  A missing `stream_url` and
an empty one behave identically (`if not stream_url`), so both are the empty
string. -/
inductive AIReply where
  | toolError
  | parseError
  | reply (status : String) (stream_url : String) (httpStatus : Nat) (events : List SSEEvent)
deriving DecidableEq

/-- The world's answers consumed while processing one `speech_segment` event. -/
structure SpeechEnv where
  payload : Option String
  transcribe : TranscribeReply
  ai : AIReply
deriving DecidableEq

/-- Outcome of the summarizer's `model_client.create` call: a completion
content, or an exception anywhere in the call (caught and reported). -/
inductive SummaryReply where
  | ok (content : String)
  | raised (msg : String)
deriving DecidableEq

/-- One inbound frame delivered by `ws.recv()` in `_process_websocket_session`,
or the exception `recv` raised instead.  `malformedJson` is a frame that
fails `json.loads`; `connClosed` a `ConnectionClosed` family exception;
`handlerError` any other exception raised while processing an event. -/
inductive WSEvent where
  | speech (env : SpeechEnv)
  | callStarted (streamSid : String)
  | callEnded (eligibility : String) (summary : SummaryReply)
  | malformedJson
  | connClosed
  | handlerError
deriving DecidableEq

/-- Outcome of the `make_call` tool call, after JSON parsing. The `message`
field carries the already-defaulted `call_data.get("message", "Failed to make call")`. -/
inductive MakeCallReply where
  | toolError
  | parseError
  | reply (status : String) (message : String) (call_sid : String) (websocket_url : String)
deriving DecidableEq

/-- Value returned by a flow handler: the content of the `AssistantMessage`,
or `noReturn` when control falls off the end of the function body. -/
inductive FlowResult where
  | errorReply (msg : String)
  | reply (content : String)
  | noReturn
deriving DecidableEq

/-- Whether a `FlowResult` is an error reply. -/
def FlowResult.isErrorReply : FlowResult → Bool
  | FlowResult.errorReply _ => true
  | _ => false

/-! ## Operations -/

/-- `WrapperAgent._cleanup_session` (lines 768-807): attempt `ws.close()` and
remove the connection entry if one is stored; mark the session object
inactive and remove the registry entry if present; drop the conversation
history and the session context.  The leading `cleanupRun` effect marks the
invocation itself. -/
def cleanup_session (st : AgentState) (sid : String) : AgentState × List Effect :=
  let closeEff : List Effect :=
    match lookupA st.connections sid with
    | some _ => [Effect.wsClose sid]
    | none => []
  let st1 := { st with connections := eraseA st.connections sid }
  let st2 :=
    if containsS st1.registry sid then
      { st1.setFlag sid false with registry := eraseS st1.registry sid }
    else st1
  let st3 := { st2 with histories := eraseA st2.histories sid,
                        contexts := eraseA st2.contexts sid }
  (st3, Effect.cleanupRun sid :: closeEff)

/-- `WrapperAgent._route_response` (lines 669-707).  `is_mid` is the source's
`is_partial` argument.  Absent or inactive session: log-only no-op.  Session
active but no stored websocket: mark inactive and clean up.  Otherwise send a
tagged frame; a connection-closed error while sending only flips `is_active`
(cleanup is left to the dispatcher loop). -/
def route_response (st : AgentState) (sid : String) (response accText : String)
    (is_mid : Bool) : AgentState × List Effect :=
  match st.sessionActive sid with
  | none => (st, [])
  | some false => (st, [])
  | some true =>
    match lookupA st.connections sid with
    | none => cleanup_session (st.setFlag sid false) sid
    | some isOpen =>
      if isOpen then
        (st, [Effect.wsSend sid (if is_mid then "partial_response" else "text_response")
                response accText])
      else
        (st.setFlag sid false, [])

/-- The SSE event loop of `_process_websocket_message` (lines 594-651):
accumulate `text_chunk` fragments into `accText` and `cur`; when the running
sentence matches `_detect_sentence_end`, route it (stripped) as a partial
response and reset; on `error` stop; on `completed` route any stripped
remainder as a partial response, route the full accumulation as the final
response, append it to the conversation history (a missing history entry
raises a `KeyError` caught by the outer handler, dropping the UI publish),
and publish it. -/
def sseLoop (sid : String) : List SSEEvent → String → String → AgentState → AgentState × List Effect
  | [], _, _, st => (st, [])
  | SSEEvent.chunk t :: rest, accText, cur, st =>
    if detect_sentence_end (cur ++ t) then
      let r1 := route_response st sid (pyStrip (cur ++ t)) (accText ++ t) true
      let r2 := sseLoop sid rest (accText ++ t) "" r1.1
      (r2.1, r1.2 ++ r2.2)
    else
      sseLoop sid rest (accText ++ t) (cur ++ t) st
  | SSEEvent.errorEv _ :: _, _, _, st => (st, [])
  | SSEEvent.completed :: _, accText, cur, st =>
    let r1 :=
      if pyStrip cur ≠ "" then route_response st sid (pyStrip cur) accText true
      else (st, ([] : List Effect))
    let r2 := route_response r1.1 sid accText accText false
    match lookupA r2.1.histories sid with
    | none => (r2.1, r1.2 ++ r2.2)
    | some h =>
      let turn : Turn := ⟨"assistant", accText⟩
      ({ r2.1 with histories := insertA r2.1.histories sid (h ++ [turn]) },
       r1.2 ++ r2.2 ++ [Effect.appendTurn sid turn,
                        Effect.publishUI ("Agent (" ++ takeChars 8 sid ++ ")") accText])

/-- `WrapperAgent._process_websocket_message` (lines 433-666): extract the
audio payload (a missing or empty payload is silently ignored), transcribe
it, drop tool errors, parse failures, non-success statuses and empty
transcripts, otherwise publish the transcript, append it to the conversation
history (creating the entry on first use), call `ask_ai_agent`, and on a
well-formed streaming reply with a 200 status run the SSE loop. -/
def process_websocket_message (st : AgentState) (sid : String) (env : SpeechEnv) :
    AgentState × List Effect :=
  match env.payload with
  | none => (st, [])
  | some p =>
    if p = "" then (st, [])
    else
      match env.transcribe with
      | TranscribeReply.toolError => (st, [Effect.toolCall "transcribe_audio"])
      | TranscribeReply.parseError => (st, [Effect.toolCall "transcribe_audio"])
      | TranscribeReply.reply status text =>
        if status ≠ "success" then (st, [Effect.toolCall "transcribe_audio"])
        else if text = "" then (st, [Effect.toolCall "transcribe_audio"])
        else
          let userTurn : Turn := ⟨"user", text⟩
          let h0 := (lookupA st.histories sid).getD []
          let st1 := { st with histories := insertA st.histories sid (h0 ++ [userTurn]) }
          let e0 := [Effect.toolCall "transcribe_audio",
                     Effect.publishUI ("Caller (" ++ takeChars 8 sid ++ ")") text,
                     Effect.appendTurn sid userTurn,
                     Effect.toolCall "ask_ai_agent"]
          match env.ai with
          | AIReply.toolError => (st1, e0)
          | AIReply.parseError => (st1, e0)
          | AIReply.reply aStatus stream_url httpStatus events =>
            if aStatus ≠ "streaming_url_generated" then (st1, e0)
            else if stream_url = "" then (st1, e0)
            else if httpStatus ≠ 200 then (st1, e0)
            else
              let r := sseLoop sid events "" "" st1
              (r.1, e0 ++ r.2)

/-- `WrapperAgent._generate_conversation_summary` (lines 709-766): with no
conversation history, publish a "No conversation data available" notice and
make no model call; otherwise call the model on the full history and publish
the summary, an "Unable to generate summary" notice on an empty one, or an
error notice if the call raised. -/
def generate_conversation_summary (st : AgentState) (sid : String) (reply : SummaryReply) :
    AgentState × List Effect :=
  match lookupA st.histories sid with
  | none =>
    (st, [Effect.publishUI ("Summary (" ++ takeChars 8 sid ++ ")") "No conversation data available"])
  | some conversation =>
    match reply with
    | SummaryReply.ok summary =>
      if summary ≠ "" then
        (st, [Effect.modelCreate sid conversation,
              Effect.publishUI ("Call Summary (" ++ takeChars 8 sid ++ ")")
                ("CALL SUMMARY: " ++ summary)])
      else
        (st, [Effect.modelCreate sid conversation,
              Effect.publishUI ("Call Summary (" ++ takeChars 8 sid ++ ")")
                "Unable to generate summary"])
    | SummaryReply.raised msg =>
      (st, [Effect.modelCreate sid conversation,
            Effect.publishUI ("Call Summary (" ++ takeChars 8 sid ++ ")")
              ("Error generating summary: " ++ msg)])

/-- One iteration body of the dispatcher loop in `_process_websocket_session`
(lines 362-411), given the received frame. -/
def handleLoopEvent (st : AgentState) (sid : String) : WSEvent → AgentState × List Effect
  | WSEvent.speech env => process_websocket_message st sid env
  | WSEvent.callStarted streamSid =>
    (st, [Effect.publishUI ("Call (" ++ takeChars 8 sid ++ ")")
            ("Call started - Stream SID: " ++ streamSid)])
  | WSEvent.callEnded eligibility reply =>
    let e0 := [Effect.publishUI ("Call (" ++ takeChars 8 sid ++ ")")
                 ("Call ended - Eligibility: " ++ eligibility)]
    let r1 :=
      match lookupA st.histories sid with
      | some h =>
        let turn : Turn := ⟨"system", "Eligibility check result: " ++ eligibility⟩
        ({ st with histories := insertA st.histories sid (h ++ [turn]) },
         [Effect.appendTurn sid turn])
      | none => (st, ([] : List Effect))
    let st2 := r1.1.setFlag sid false
    let r2 := generate_conversation_summary st2 sid reply
    (r2.1, e0 ++ r1.2 ++ r2.2)
  | WSEvent.malformedJson => (st, [])
  | WSEvent.connClosed => (st.setFlag sid false, [])
  | WSEvent.handlerError => (st.setFlag sid false, [])

/-- The `while session.is_active` loop of `_process_websocket_session`: the
activity flag of the session object is checked before each `recv`; the run
ends when it is no longer `true` or the transport delivers nothing more. -/
def sessionLoop (sid : String) : List WSEvent → AgentState → AgentState × List Effect
  | [], st => (st, [])
  | e :: rest, st =>
    match lookupA st.flags sid with
    | some true =>
      let r1 := handleLoopEvent st sid e
      let r2 := sessionLoop sid rest r1.1
      (r2.1, r1.2 ++ r2.2)
    | _ => (st, [])

/-- `WrapperAgent._process_websocket_session` (lines 343-427): abort with a
cleanup when the session or its websocket is missing at start; otherwise run
the dispatcher loop, and in the `finally` block force the session inactive
and clean up — on every exit path, exactly once. -/
def process_websocket_session (st : AgentState) (sid : String) (events : List WSEvent) :
    AgentState × List Effect :=
  if containsS st.registry sid then
    match lookupA st.connections sid with
    | some _ =>
      let r1 := sessionLoop sid events st
      let r2 := cleanup_session (r1.1.setFlag sid false) sid
      (r2.1, r1.2 ++ r2.2)
    | none =>
      cleanup_session (st.setFlag sid false) sid
  else
    cleanup_session st sid

/-- The SSE consumption loop of `_handle_single_response_flow`
(lines 151-197): accumulate chunks; an `error` event returns an error reply
discarding the accumulation; `completed` returns the accumulation; a stream
that ends without a marker falls off the function body. -/
def single_response_go : List SSEEvent → String → FlowResult
  | [], _ => FlowResult.noReturn
  | SSEEvent.chunk t :: rest, accText => single_response_go rest (accText ++ t)
  | SSEEvent.errorEv m :: _, _ => FlowResult.errorReply ("Streaming error: " ++ m)
  | SSEEvent.completed :: _, accText => FlowResult.reply accText

/-- The streaming section of `_handle_single_response_flow` (lines 140-197):
a non-200 transport status fails before any event is consumed. -/
def single_response_stream (httpStatus : Nat) (events : List SSEEvent) : FlowResult :=
  if httpStatus ≠ 200 then
    FlowResult.errorReply ("Streaming connection failed (Status " ++ Nat.repr httpStatus ++ ")")
  else single_response_go events ""

/-- `WrapperAgent._handle_websocket_flow` (lines 240-341): append the request
to `agent_history`, invoke `make_call`, fail without touching any per-session
map on a tool error, a non-success status or a missing websocket URL;
otherwise register the session (active), store its context, connect the
websocket (on failure: mark inactive, clean up, fail), store the connection
and spawn the dispatcher task. -/
def handle_websocket_flow (st : AgentState) (sid : String) (content : String)
    (callReply : MakeCallReply) (connectOk : Bool) : AgentState × List Effect × FlowResult :=
  let st0 := { st with agent_history :=
      st.agent_history ++ [⟨"websocket_conversation", content, none, some sid⟩] }
  let e0 := [Effect.publishUI "WrapperAgent" "Initiating call to +12132841509...",
             Effect.toolCall "make_call"]
  match callReply with
  | MakeCallReply.toolError =>
    (st0, e0 ++ [Effect.publishUI "WrapperAgent" "Error: Failed to initiate call"],
     FlowResult.errorReply "Failed to initiate call")
  | MakeCallReply.parseError =>
    let st1 := if containsS st0.registry sid then st0.setFlag sid false else st0
    let r := cleanup_session st1 sid
    (r.1, e0 ++ [Effect.publishUI "WrapperAgent" "Error in WebSocket flow"] ++ r.2,
     FlowResult.errorReply "Error in WebSocket flow")
  | MakeCallReply.reply status message _call_sid websocket_url =>
    if status ≠ "success" then
      (st0, e0 ++ [Effect.publishUI "WrapperAgent" ("Error: " ++ message)],
       FlowResult.errorReply message)
    else if websocket_url = "" then
      (st0, e0 ++ [Effect.publishUI "WrapperAgent" "Error: No WebSocket URL returned"],
       FlowResult.errorReply "No WebSocket URL returned")
    else
      let st1 := { st0 with registry := sid :: eraseS st0.registry sid,
                            flags := insertA st0.flags sid true,
                            contexts := insertA st0.contexts sid content }
      if connectOk then
        let st2 := { st1 with connections := insertA st1.connections sid true }
        (st2, e0 ++ [Effect.publishUI "WrapperAgent" "Connected to call",
                     Effect.spawnTask sid],
         FlowResult.reply ("Call initiated with ID " ++ takeChars 8 sid))
      else
        let st2 := if containsS st1.registry sid then st1.setFlag sid false else st1
        let r := cleanup_session st2 sid
        (r.1, e0 ++ [Effect.publishUI "WrapperAgent" "WebSocket connection failed"] ++ r.2,
         FlowResult.errorReply "WebSocket connection failed")

/-! ## Trace observations -/

/-- Sentence chunks routed to the call leg of `sid`: the texts of
`partial_response` frames, in order. -/
def sentSentences (sid : String) (effs : List Effect) : List String :=
  effs.filterMap fun e =>
    match e with
    | Effect.wsSend s t text _ =>
      if s = sid then (if t = "partial_response" then some text else none) else none
    | _ => none

/-- Whether an effect is the cleanup invocation for `sid`. -/
def isCleanupFor (sid : String) : Effect → Bool
  | Effect.cleanupRun s => if s = sid then true else false
  | _ => false

/-- Whether an effect is the stream close for `sid`. -/
def isCloseFor (sid : String) : Effect → Bool
  | Effect.wsClose s => if s = sid then true else false
  | _ => false

/-- Whether an effect is a summarizer model call for `sid`. -/
def isModelCreateFor (sid : String) : Effect → Bool
  | Effect.modelCreate s _ => if s = sid then true else false
  | _ => false

/-- Whether an effect is any history append for `sid`. -/
def isAppendFor (sid : String) : Effect → Bool
  | Effect.appendTurn s _ => if s = sid then true else false
  | _ => false

/-- Whether an effect is the spawn of the dispatcher task for `sid`. -/
def isSpawnFor (sid : String) : Effect → Bool
  | Effect.spawnTask s => if s = sid then true else false
  | _ => false

/-- Whether an effect is a final (`text_response`) frame for `sid`. -/
def isFinalSendFor (sid : String) : Effect → Bool
  | Effect.wsSend s t _ _ => if s = sid then (if t = "text_response" then true else false) else false
  | _ => false

/-- `needle` occurs at the front of `hay`. -/
def seqAtFront : List Char → List Char → Bool
  | [], _ => true
  | _ :: _, [] => false
  | a :: as, b :: bs => if a = b then seqAtFront as bs else false

/-- `needle` occurs somewhere inside `hay` (Python `needle in hay`). -/
def containsSeq (needle : List Char) : List Char → Bool
  | [] => seqAtFront needle []
  | hay@(_ :: rest) => if seqAtFront needle hay then true else containsSeq needle rest

/-- Substring containment on strings. -/
def containsSub (needle s : String) : Bool :=
  containsSeq needle.data s.data

/-- Whether an effect appends a system turn containing "confirmed" for `sid`. -/
def isConfirmedSystemAppend (sid : String) : Effect → Bool
  | Effect.appendTurn s t =>
    if s = sid then
      (if t.role = "system" then containsSub "confirmed" t.content else false)
    else false
  | _ => false

/-- A session that is registered, active, and whose stored websocket still
accepts sends. -/
def healthySession (st : AgentState) (sid : String) : Prop :=
  containsS st.registry sid = true ∧ lookupA st.flags sid = some true ∧
    lookupA st.connections sid = some true

instance (st : AgentState) (sid : String) : Decidable (healthySession st sid) := by
  unfold healthySession
  infer_instance

/-- No fragment of the list carries sentence-ending punctuation. -/
def noPunct (frags : List String) : Prop :=
  ∀ s ∈ frags, ∀ c ∈ s.data, isSentencePunct c = false

instance (frags : List String) : Decidable (noPunct frags) := by
  unfold noPunct
  infer_instance

/-! ## Chunker lemmas -/

theorem searchPunctThenSpaces_of_noPunct (l : List Char)
    (h : ∀ c ∈ l, isSentencePunct c = false) : searchPunctThenSpaces l = false := by
  induction l with
  | nil => rfl
  | cons c rest ih =>
    have hc := h c (List.mem_cons_self c rest)
    have hrest := ih fun c' hc' => h c' (List.mem_cons_of_mem c hc')
    simp [searchPunctThenSpaces, hc, hrest]

theorem detect_sentence_end_of_noPunct (s : String)
    (h : ∀ c ∈ s.data, isSentencePunct c = false) : detect_sentence_end s = false :=
  searchPunctThenSpaces_of_noPunct s.data h

/-- On a healthy session, routing is exactly one outbound frame and no state
change. -/
theorem route_response_healthy (st : AgentState) (sid : String) (r a : String) (m : Bool)
    (h : healthySession st sid) :
    route_response st sid r a m
      = (st, [Effect.wsSend sid (if m then "partial_response" else "text_response") r a]) := by
  obtain ⟨h1, h2, h3⟩ := h
  simp [route_response, AgentState.sessionActive, h1, h2, h3]

/-- On a healthy session, a punctuation-free fragment stream routes no
sentence mid-stream and exactly the stripped concatenation (when nonempty)
at the `completed` marker. -/
theorem sseLoop_noPunct (sid : String) (st : AgentState) (h : healthySession st sid)
    (frags : List String) (hf : noPunct frags) :
    ∀ accText cur : String, (∀ c ∈ cur.data, isSentencePunct c = false) →
    sentSentences sid (sseLoop sid (frags.map SSEEvent.chunk ++ [SSEEvent.completed]) accText cur st).2
      = (if pyStrip (cur ++ concatS frags) = "" then [] else [pyStrip (cur ++ concatS frags)]) ∧
    sentSentences sid (sseLoop sid (frags.map SSEEvent.chunk) accText cur st).2 = [] := by
  induction frags with
  | nil =>
    intro accText cur hc
    refine ⟨?_, by simp [sseLoop, sentSentences]⟩
    by_cases hs : pyStrip cur = ""
    · simp only [List.map_nil, List.nil_append, sseLoop, hs, ne_eq, not_true_eq_false, if_false,
        route_response_healthy st sid _ _ _ h]
      cases hh : lookupA st.histories sid <;>
        simp [concatS, hs, sentSentences, hh]
    · simp only [List.map_nil, List.nil_append, sseLoop, hs, ne_eq, not_false_eq_true, if_true,
        route_response_healthy st sid _ _ _ h]
      cases hh : lookupA st.histories sid <;>
        simp [concatS, hs, sentSentences, hh]
  | cons f fs ih =>
    intro accText cur hc
    have hcf : ∀ c ∈ (cur ++ f).data, isSentencePunct c = false := by
      intro c hcm
      rw [String.data_append] at hcm
      rcases List.mem_append.mp hcm with h' | h'
      · exact hc c h'
      · exact hf f (List.mem_cons_self f fs) c h'
    have hdet : detect_sentence_end (cur ++ f) = false :=
      detect_sentence_end_of_noPunct _ hcf
    have hffs : noPunct fs := fun s hs c hcm => hf s (List.mem_cons_of_mem f hs) c hcm
    have := ih hffs (accText ++ f) (cur ++ f) hcf
    simp only [List.map_cons, List.cons_append, sseLoop, hdet, if_false, Bool.false_eq_true]
    rw [show (cur ++ f) ++ concatS fs = cur ++ concatS (f :: fs) by
      rw [concatS, ← String.append_assoc]] at this
    exact this

/-- The SSE loop never consumes anything after an `error` marker: a stream of
chunks followed by the marker behaves exactly like the chunks alone. -/
theorem sseLoop_stops_at_error (sid : String) (frags : List String) (m : String)
    (rest : List SSEEvent) :
    ∀ (accText cur : String) (st : AgentState),
    sseLoop sid (frags.map SSEEvent.chunk ++ SSEEvent.errorEv m :: rest) accText cur st
      = sseLoop sid (frags.map SSEEvent.chunk) accText cur st := by
  induction frags with
  | nil => intro accText cur st; rfl
  | cons f fs ih =>
    intro accText cur st
    simp only [List.map_cons, List.cons_append, sseLoop]
    by_cases hdet : detect_sentence_end (cur ++ f) = true <;>
      simp [hdet, ih]

/-- Routing a mid-stream sentence never produces a final (`text_response`)
frame, whatever the session state. -/
theorem route_response_mid_no_final (st : AgentState) (sid : String) (r a : String) :
    (route_response st sid r a true).2.countP (isFinalSendFor sid) = 0 := by
  unfold route_response
  cases hact : st.sessionActive sid with
  | none => rfl
  | some b =>
    cases b with
    | false => rfl
    | true =>
      cases hc : lookupA st.connections sid with
      | none => simp [cleanup_session, AgentState.setFlag, hc, isFinalSendFor]
      | some isOpen =>
        cases isOpen <;> simp [isFinalSendFor]

/-- A chunk-only SSE stream routes no final (`text_response`) frame. -/
theorem sseLoop_chunks_no_final (sid : String) (frags : List String) :
    ∀ (accText cur : String) (st : AgentState),
    (sseLoop sid (frags.map SSEEvent.chunk) accText cur st).2.countP (isFinalSendFor sid) = 0 := by
  induction frags with
  | nil => intro accText cur st; rfl
  | cons f fs ih =>
    intro accText cur st
    simp only [List.map_cons, sseLoop]
    by_cases hdet : detect_sentence_end (cur ++ f) = true
    · simp [hdet, List.countP_append, route_response_mid_no_final, ih]
    · simp [hdet, ih]

/-- A chunk stream ended by `error` returns the fixed error reply of the
single-shot flow, independent of the fragments accumulated before it. -/
theorem single_response_go_error (frags : List String) (m : String) (rest : List SSEEvent) :
    ∀ accText : String,
    single_response_go (frags.map SSEEvent.chunk ++ SSEEvent.errorEv m :: rest) accText
      = FlowResult.errorReply ("Streaming error: " ++ m) := by
  induction frags with
  | nil => intro accText; rfl
  | cons f fs ih => intro accText; exact ih (accText ++ f)

/-! ## Activity-flag monotonicity

`is_active` is written by creation (`is_active=True`, in the Call Initiator
only) and afterwards only ever with `False`.  `flagKept sid st st'` states
that a step from `st` to `st'` neither resurrects the flag (`some true`
afterwards means it was `some true` before) nor revives an already-dead one
(`some false` is absorbing). -/
def flagKept (sid : String) (st st' : AgentState) : Prop :=
  (lookupA st'.flags sid = some true → lookupA st.flags sid = some true) ∧
  (lookupA st.flags sid = some false → lookupA st'.flags sid = some false)

theorem flagKept_refl (sid : String) (st : AgentState) : flagKept sid st st :=
  ⟨fun h => h, fun h => h⟩

theorem flagKept_trans {sid : String} {st1 st2 st3 : AgentState}
    (h1 : flagKept sid st1 st2) (h2 : flagKept sid st2 st3) : flagKept sid st1 st3 :=
  ⟨fun h => h1.1 (h2.1 h), fun h => h2.2 (h1.2 h)⟩

theorem flagKept_of_flags_eq {sid : String} {st st' : AgentState}
    (h : st'.flags = st.flags) : flagKept sid st st' :=
  ⟨fun hh => by rw [h] at hh; exact hh, fun hh => by rw [h]; exact hh⟩

theorem flagKept_updateA_false (sid s : String) (l : List (String × Bool)) :
    (lookupA (updateA l s false) sid = some true → lookupA l sid = some true) ∧
    (lookupA l sid = some false → lookupA (updateA l s false) sid = some false) := by
  by_cases hs : sid = s
  · subst hs
    rw [lookupA_updateA_self]
    cases lookupA l sid <;> simp
  · rw [lookupA_updateA_ne l s sid false hs]
    exact ⟨fun h => h, fun h => h⟩

theorem flagKept_setFlagFalse (sid s : String) (st : AgentState) :
    flagKept sid st (st.setFlag s false) :=
  flagKept_updateA_false sid s st.flags

theorem cleanup_session_flags (st : AgentState) (s : String) :
    (cleanup_session st s).1.flags
      = if containsS st.registry s = true then updateA st.flags s false else st.flags := by
  unfold cleanup_session AgentState.setFlag
  by_cases hr : containsS st.registry s = true <;> simp [hr]

theorem cleanup_session_connections (st : AgentState) (s : String) :
    (cleanup_session st s).1.connections = eraseA st.connections s := by
  unfold cleanup_session AgentState.setFlag
  by_cases hr : containsS st.registry s = true <;> simp [hr]

theorem cleanup_session_registry (st : AgentState) (s : String) :
    (cleanup_session st s).1.registry
      = if containsS st.registry s = true then eraseS st.registry s else st.registry := by
  unfold cleanup_session AgentState.setFlag
  by_cases hr : containsS st.registry s = true <;> simp [hr]

theorem cleanup_session_histories (st : AgentState) (s : String) :
    (cleanup_session st s).1.histories = eraseA st.histories s := by
  unfold cleanup_session AgentState.setFlag
  by_cases hr : containsS st.registry s = true <;> simp [hr]

theorem cleanup_session_contexts (st : AgentState) (s : String) :
    (cleanup_session st s).1.contexts = eraseA st.contexts s := by
  unfold cleanup_session AgentState.setFlag
  by_cases hr : containsS st.registry s = true <;> simp [hr]

theorem cleanup_session_agent_history (st : AgentState) (s : String) :
    (cleanup_session st s).1.agent_history = st.agent_history := by
  unfold cleanup_session AgentState.setFlag
  by_cases hr : containsS st.registry s = true <;> simp [hr]

theorem cleanup_session_effects (st : AgentState) (s : String) :
    (cleanup_session st s).2
      = Effect.cleanupRun s ::
          (match lookupA st.connections s with
           | some _ => [Effect.wsClose s]
           | none => []) := by
  unfold cleanup_session
  rfl

theorem flagKept_cleanup (sid s : String) (st : AgentState) :
    flagKept sid st (cleanup_session st s).1 := by
  constructor
  · intro h
    rw [cleanup_session_flags] at h
    by_cases hr : containsS st.registry s = true
    · rw [hr, if_pos rfl] at h
      exact (flagKept_updateA_false sid s st.flags).1 h
    · simp only [hr] at h
      simpa using h
  · intro h
    rw [cleanup_session_flags]
    by_cases hr : containsS st.registry s = true
    · rw [hr, if_pos rfl]
      exact (flagKept_updateA_false sid s st.flags).2 h
    · simp only [hr]
      simpa using h

theorem generate_conversation_summary_state (st : AgentState) (s : String) (r : SummaryReply) :
    (generate_conversation_summary st s r).1 = st := by
  unfold generate_conversation_summary
  cases lookupA st.histories s with
  | none => rfl
  | some conversation =>
    cases r with
    | ok summary => by_cases hs : summary = "" <;> simp [hs]
    | raised msg => rfl

theorem flagKept_route (sid s : String) (st : AgentState) (r a : String) (m : Bool) :
    flagKept sid st (route_response st s r a m).1 := by
  unfold route_response
  cases hact : st.sessionActive s with
  | none => exact flagKept_refl sid st
  | some b =>
    cases b with
    | false => exact flagKept_refl sid st
    | true =>
      cases hc : lookupA st.connections s with
      | none =>
        exact flagKept_trans (flagKept_setFlagFalse sid s st) (flagKept_cleanup sid s _)
      | some isOpen =>
        cases isOpen with
        | true => exact flagKept_refl sid st
        | false => exact flagKept_setFlagFalse sid s st

theorem flagKept_sseLoop (sid s : String) (events : List SSEEvent) :
    ∀ (accText cur : String) (st : AgentState),
      flagKept sid st (sseLoop s events accText cur st).1 := by
  induction events with
  | nil => intro _ _ st; exact flagKept_refl sid st
  | cons e rest ih =>
    intro accText cur st
    cases e with
    | chunk t =>
      simp only [sseLoop]
      by_cases hdet : detect_sentence_end (cur ++ t) = true
      · simp only [hdet, if_true]
        exact flagKept_trans (flagKept_route sid s st _ _ true) (ih _ _ _)
      · simp only [hdet, Bool.false_eq_true, if_false]
        exact ih _ _ _
    | errorEv m => exact flagKept_refl sid st
    | completed =>
      simp only [sseLoop]
      have h1 : flagKept sid st
          (if pyStrip cur ≠ "" then route_response st s (pyStrip cur) accText true
           else (st, ([] : List Effect))).1 := by
        by_cases hs : pyStrip cur = ""
        · simp only [hs, ne_eq, not_true_eq_false, if_false]
          exact flagKept_refl sid st
        · simp only [hs, ne_eq, not_false_eq_true, if_true]
          exact flagKept_route sid s st _ _ true
      set st1 := (if pyStrip cur ≠ "" then route_response st s (pyStrip cur) accText true
           else (st, ([] : List Effect))).1 with hst1
      have h2 : flagKept sid st (route_response st1 s accText accText false).1 :=
        flagKept_trans h1 (flagKept_route sid s st1 _ _ false)
      cases hh : lookupA (route_response st1 s accText accText false).1.histories s with
      | none => simpa [hh] using h2
      | some hl => simpa [hh] using h2

theorem flagKept_pwm (sid s : String) (st : AgentState) (env : SpeechEnv) :
    flagKept sid st (process_websocket_message st s env).1 := by
  obtain ⟨payload, transcribe, ai⟩ := env
  unfold process_websocket_message
  cases payload with
  | none => exact flagKept_refl sid st
  | some p =>
    by_cases hp : p = ""
    · simp only [hp, if_pos rfl]
      exact flagKept_refl sid st
    · simp only [hp, if_false]
      cases transcribe with
      | toolError => exact flagKept_refl sid st
      | parseError => exact flagKept_refl sid st
      | reply status text =>
        by_cases hs : status = "success"
        · simp only [hs, ne_eq, not_true_eq_false, if_false]
          by_cases ht : text = ""
          · simp only [ht, if_pos rfl]
            exact flagKept_refl sid st
          · simp only [ht, if_false]
            cases ai with
            | toolError => exact flagKept_of_flags_eq rfl
            | parseError => exact flagKept_of_flags_eq rfl
            | reply aStatus stream_url httpStatus events =>
              by_cases ha : aStatus = "streaming_url_generated"
              · simp only [ha, ne_eq, not_true_eq_false, if_false]
                by_cases hu : stream_url = ""
                · simp only [hu, if_pos rfl]
                  exact flagKept_of_flags_eq rfl
                · simp only [hu, if_false]
                  by_cases hh : httpStatus = 200
                  · simp only [hh, ne_eq, not_true_eq_false, if_false]
                    exact flagKept_trans (flagKept_of_flags_eq rfl)
                      (flagKept_sseLoop sid s events "" "" _)
                  · simp only [hh, ne_eq, not_false_eq_true, if_true]
                    exact flagKept_of_flags_eq rfl
              · simp only [ha, ne_eq, not_false_eq_true, if_true]
                exact flagKept_of_flags_eq rfl
        · simp only [hs, ne_eq, not_false_eq_true, if_true]
          exact flagKept_refl sid st

theorem flagKept_handleLoopEvent (sid s : String) (st : AgentState) (e : WSEvent) :
    flagKept sid st (handleLoopEvent st s e).1 := by
  cases e with
  | speech env => exact flagKept_pwm sid s st env
  | callStarted streamSid => exact flagKept_refl sid st
  | callEnded eligibility reply =>
    simp only [handleLoopEvent]
    cases hh : lookupA st.histories s with
    | some h =>
      simp only []
      rw [generate_conversation_summary_state]
      exact flagKept_trans (flagKept_of_flags_eq rfl)
        (flagKept_setFlagFalse sid s _)
    | none =>
      simp only []
      rw [generate_conversation_summary_state]
      exact flagKept_setFlagFalse sid s st
  | malformedJson => exact flagKept_refl sid st
  | connClosed => exact flagKept_setFlagFalse sid s st
  | handlerError => exact flagKept_setFlagFalse sid s st

theorem flagKept_sessionLoop (sid s : String) (events : List WSEvent) :
    ∀ st : AgentState, flagKept sid st (sessionLoop s events st).1 := by
  induction events with
  | nil => intro st; exact flagKept_refl sid st
  | cons e rest ih =>
    intro st
    simp only [sessionLoop]
    cases hflag : lookupA st.flags s with
    | none => exact flagKept_refl sid st
    | some b =>
      cases b with
      | true =>
        exact flagKept_trans (flagKept_handleLoopEvent sid s st e) (ih _)
      | false => exact flagKept_refl sid st

theorem flagKept_process_websocket_session (sid s : String) (st : AgentState)
    (events : List WSEvent) :
    flagKept sid st (process_websocket_session st s events).1 := by
  unfold process_websocket_session
  by_cases hr : containsS st.registry s = true
  · simp only [hr, if_pos rfl]
    cases hc : lookupA st.connections s with
    | some _ =>
      exact flagKept_trans (flagKept_sessionLoop sid s events st)
        (flagKept_trans (flagKept_setFlagFalse sid s _) (flagKept_cleanup sid s _))
    | none =>
      exact flagKept_trans (flagKept_setFlagFalse sid s st) (flagKept_cleanup sid s _)
  · simp only [hr, if_false]
    exact flagKept_cleanup sid s st

/-! ## Connection preservation

While the stored websocket of a session is present, none of the in-loop
operations removes it or performs any teardown: the only erase of a
connection entry and the only `cleanupRun`/`wsClose` effects come from
`cleanup_session`, which the dispatcher reaches only in its guaranteed final
block (or its startup aborts). -/

theorem route_response_connSafe (st : AgentState) (s : String) (r a : String) (m : Bool)
    (h : lookupA st.connections s ≠ none) :
    (route_response st s r a m).1.connections = st.connections ∧
    (route_response st s r a m).2.countP (isCleanupFor s) = 0 ∧
    (route_response st s r a m).2.countP (isCloseFor s) = 0 := by
  unfold route_response
  cases hact : st.sessionActive s with
  | none => exact ⟨rfl, rfl, rfl⟩
  | some b =>
    cases b with
    | false => exact ⟨rfl, rfl, rfl⟩
    | true =>
      cases hc : lookupA st.connections s with
      | none => exact absurd hc h
      | some isOpen =>
        cases isOpen with
        | true => simp [AgentState.setFlag, isCleanupFor, isCloseFor]
        | false => simp [AgentState.setFlag, isCleanupFor, isCloseFor]

theorem sseLoop_connSafe (s : String) (events : List SSEEvent) :
    ∀ (accText cur : String) (st : AgentState), lookupA st.connections s ≠ none →
    (sseLoop s events accText cur st).1.connections = st.connections ∧
    (sseLoop s events accText cur st).2.countP (isCleanupFor s) = 0 ∧
    (sseLoop s events accText cur st).2.countP (isCloseFor s) = 0 := by
  induction events with
  | nil => intro _ _ st _; exact ⟨rfl, rfl, rfl⟩
  | cons e rest ih =>
    intro accText cur st h
    cases e with
    | chunk t =>
      simp only [sseLoop]
      by_cases hdet : detect_sentence_end (cur ++ t) = true
      · simp only [hdet, if_true]
        obtain ⟨hc1, hc2, hc3⟩ := route_response_connSafe st s (pyStrip (cur ++ t)) (accText ++ t) true h
        have h' : lookupA (route_response st s (pyStrip (cur ++ t)) (accText ++ t) true).1.connections s ≠ none := by
          rw [hc1]; exact h
        obtain ⟨hi1, hi2, hi3⟩ := ih (accText ++ t) "" _ h'
        refine ⟨hi1.trans hc1, ?_, ?_⟩ <;>
          simp [List.countP_append, hc2, hc3, hi2, hi3]
      · simp only [hdet, Bool.false_eq_true, if_false]
        exact ih (accText ++ t) (cur ++ t) st h
    | errorEv m => exact ⟨rfl, rfl, rfl⟩
    | completed =>
      simp only [sseLoop]
      have hr1 := route_response_connSafe st s (pyStrip cur) accText true h
      by_cases hs : pyStrip cur = ""
      all_goals
        simp only [hs, ne_eq, not_true_eq_false, not_false_eq_true, if_true, if_false]
      · -- pyStrip cur = "" : r1 is (st, [])
        have hr2 := route_response_connSafe st s accText accText false h
        cases hh : lookupA (route_response st s accText accText false).1.histories s with
        | none => simpa [hh] using hr2
        | some hl =>
          refine ⟨hr2.1, ?_, ?_⟩ <;>
            simp [hh, List.countP_append, hr2.2.1, hr2.2.2, isCleanupFor, isCloseFor]
      · -- pyStrip cur ≠ "" : r1 is a real route
        have h1 : lookupA (route_response st s (pyStrip cur) accText true).1.connections s ≠ none := by
          rw [hr1.1]; exact h
        have hr2 := route_response_connSafe _ s accText accText false h1
        cases hh : lookupA (route_response (route_response st s (pyStrip cur) accText true).1 s accText accText false).1.histories s with
        | none =>
          refine ⟨hr2.1.trans hr1.1, ?_, ?_⟩ <;>
            simp [hh, List.countP_append, hr1.2.1, hr1.2.2, hr2.2.1, hr2.2.2]
        | some hl =>
          refine ⟨hr2.1.trans hr1.1, ?_, ?_⟩ <;>
            simp [hh, List.countP_append, hr1.2.1, hr1.2.2, hr2.2.1, hr2.2.2,
              isCleanupFor, isCloseFor]

theorem summary_no_cleanup (st : AgentState) (s : String) (reply : SummaryReply) :
    (generate_conversation_summary st s reply).2.countP (isCleanupFor s) = 0 := by
  unfold generate_conversation_summary
  cases lookupA st.histories s with
  | none => simp [isCleanupFor]
  | some conversation =>
    cases reply with
    | ok summary => by_cases hs : summary = "" <;> simp [hs, isCleanupFor]
    | raised msg => simp [isCleanupFor]

theorem summary_no_close (st : AgentState) (s : String) (reply : SummaryReply) :
    (generate_conversation_summary st s reply).2.countP (isCloseFor s) = 0 := by
  unfold generate_conversation_summary
  cases lookupA st.histories s with
  | none => simp [isCloseFor]
  | some conversation =>
    cases reply with
    | ok summary => by_cases hs : summary = "" <;> simp [hs, isCloseFor]
    | raised msg => simp [isCloseFor]

theorem pwm_connSafe (st : AgentState) (s : String) (env : SpeechEnv)
    (h : lookupA st.connections s ≠ none) :
    (process_websocket_message st s env).1.connections = st.connections ∧
    (process_websocket_message st s env).2.countP (isCleanupFor s) = 0 ∧
    (process_websocket_message st s env).2.countP (isCloseFor s) = 0 := by
  obtain ⟨payload, transcribe, ai⟩ := env
  unfold process_websocket_message
  cases payload with
  | none => exact ⟨rfl, rfl, rfl⟩
  | some p =>
    by_cases hp : p = ""
    · simp only [hp, if_pos rfl]
      exact ⟨rfl, rfl, rfl⟩
    · simp only [hp, if_false]
      cases transcribe with
      | toolError => simp [isCleanupFor, isCloseFor]
      | parseError => simp [isCleanupFor, isCloseFor]
      | reply status text =>
        by_cases hs : status = "success"
        · simp only [hs, ne_eq, not_true_eq_false, if_false]
          by_cases ht : text = ""
          · simp only [ht, if_pos rfl]
            simp [isCleanupFor, isCloseFor]
          · simp only [ht, if_false]
            cases ai with
            | toolError => simp [isCleanupFor, isCloseFor]
            | parseError => simp [isCleanupFor, isCloseFor]
            | reply aStatus stream_url httpStatus events =>
              by_cases ha : aStatus = "streaming_url_generated"
              · simp only [ha, ne_eq, not_true_eq_false, if_false]
                by_cases hu : stream_url = ""
                · simp only [hu, if_pos rfl]
                  simp [isCleanupFor, isCloseFor]
                · simp only [hu, if_false]
                  by_cases hh : httpStatus = 200
                  · simp only [hh, ne_eq, not_true_eq_false, if_false]
                    have hsse := sseLoop_connSafe s events "" "" { st with histories := insertA st.histories s ((lookupA st.histories s).getD [] ++ [⟨"user", text⟩]) } h
                    refine ⟨hsse.1, ?_, ?_⟩ <;>
                      simp [List.countP_append, hsse.2.1, hsse.2.2, isCleanupFor, isCloseFor]
                  · simp only [hh, ne_eq, not_false_eq_true, if_true]
                    simp [isCleanupFor, isCloseFor]
              · simp only [ha, ne_eq, not_false_eq_true, if_true]
                simp [isCleanupFor, isCloseFor]
        · simp only [hs, ne_eq, not_false_eq_true, if_true]
          simp [isCleanupFor, isCloseFor]

theorem handleLoopEvent_connSafe (st : AgentState) (s : String) (e : WSEvent)
    (h : lookupA st.connections s ≠ none) :
    (handleLoopEvent st s e).1.connections = st.connections ∧
    (handleLoopEvent st s e).2.countP (isCleanupFor s) = 0 ∧
    (handleLoopEvent st s e).2.countP (isCloseFor s) = 0 := by
  cases e with
  | speech env => exact pwm_connSafe st s env h
  | callStarted streamSid => simp [handleLoopEvent, isCleanupFor, isCloseFor]
  | callEnded eligibility reply =>
    simp only [handleLoopEvent]
    cases hh : lookupA st.histories s with
    | some hl =>
      refine ⟨?_, ?_, ?_⟩
      · rw [generate_conversation_summary_state]
        simp [AgentState.setFlag]
      · simp [List.countP_append, isCleanupFor, summary_no_cleanup]
      · simp [List.countP_append, isCloseFor, summary_no_close]
    | none =>
      refine ⟨?_, ?_, ?_⟩
      · rw [generate_conversation_summary_state]
        simp [AgentState.setFlag]
      · simp [List.countP_append, isCleanupFor, summary_no_cleanup]
      · simp [List.countP_append, isCloseFor, summary_no_close]
  | malformedJson => exact ⟨rfl, rfl, rfl⟩
  | connClosed => exact ⟨rfl, rfl, rfl⟩
  | handlerError => exact ⟨rfl, rfl, rfl⟩

theorem sessionLoop_connSafe (s : String) (events : List WSEvent) :
    ∀ st : AgentState, lookupA st.connections s ≠ none →
    (sessionLoop s events st).1.connections = st.connections ∧
    (sessionLoop s events st).2.countP (isCleanupFor s) = 0 ∧
    (sessionLoop s events st).2.countP (isCloseFor s) = 0 := by
  induction events with
  | nil => intro st _; exact ⟨rfl, rfl, rfl⟩
  | cons e rest ih =>
    intro st h
    simp only [sessionLoop]
    cases hflag : lookupA st.flags s with
    | none => exact ⟨rfl, rfl, rfl⟩
    | some b =>
      cases b with
      | true =>
        obtain ⟨he1, he2, he3⟩ := handleLoopEvent_connSafe st s e h
        have h' : lookupA (handleLoopEvent st s e).1.connections s ≠ none := by
          rw [he1]; exact h
        obtain ⟨hi1, hi2, hi3⟩ := ih _ h'
        refine ⟨hi1.trans he1, ?_, ?_⟩ <;>
          simp [List.countP_append, he2, he3, hi2, hi3]
      | false => exact ⟨rfl, rfl, rfl⟩

/-! ## Summarizer / system-turn provenance

`modelCreate` effects originate only in the summarizer, and system-role
history appends only in the `call_ended` handler; the speech pipeline
appends only `user`/`assistant` turns. -/

theorem route_response_no_summary (st : AgentState) (s : String) (r a : String) (m : Bool) :
    (route_response st s r a m).2.countP (isModelCreateFor s) = 0 ∧
    (route_response st s r a m).2.countP (isConfirmedSystemAppend s) = 0 := by
  unfold route_response
  cases hact : st.sessionActive s with
  | none => exact ⟨rfl, rfl⟩
  | some b =>
    cases b with
    | false => exact ⟨rfl, rfl⟩
    | true =>
      cases hc : lookupA st.connections s with
      | none =>
        rw [cleanup_session_effects]
        cases lookupA (st.setFlag s false).connections s <;>
          simp [isModelCreateFor, isConfirmedSystemAppend]
      | some isOpen =>
        cases isOpen <;> simp [isModelCreateFor, isConfirmedSystemAppend]

theorem sseLoop_no_summary (s : String) (events : List SSEEvent) :
    ∀ (accText cur : String) (st : AgentState),
    (sseLoop s events accText cur st).2.countP (isModelCreateFor s) = 0 ∧
    (sseLoop s events accText cur st).2.countP (isConfirmedSystemAppend s) = 0 := by
  induction events with
  | nil => intro _ _ st; exact ⟨rfl, rfl⟩
  | cons e rest ih =>
    intro accText cur st
    cases e with
    | chunk t =>
      simp only [sseLoop]
      by_cases hdet : detect_sentence_end (cur ++ t) = true
      · simp only [hdet, if_true]
        obtain ⟨hr1, hr2⟩ := route_response_no_summary st s (pyStrip (cur ++ t)) (accText ++ t) true
        obtain ⟨hi1, hi2⟩ := ih (accText ++ t) ""
          (route_response st s (pyStrip (cur ++ t)) (accText ++ t) true).1
        constructor <;> simp [List.countP_append, hr1, hr2, hi1, hi2]
      · simp only [hdet, Bool.false_eq_true, if_false]
        exact ih (accText ++ t) (cur ++ t) st
    | errorEv m => exact ⟨rfl, rfl⟩
    | completed =>
      simp only [sseLoop]
      by_cases hs : pyStrip cur = ""
      all_goals
        simp only [hs, ne_eq, not_true_eq_false, not_false_eq_true, if_true, if_false]
      · obtain ⟨hr1, hr2⟩ := route_response_no_summary st s accText accText false
        cases hh : lookupA (route_response st s accText accText false).1.histories s with
        | none => constructor <;> simp [hh, hr1, hr2]
        | some hl =>
          constructor <;>
            simp [hh, List.countP_append, hr1, hr2, isModelCreateFor, isConfirmedSystemAppend]
      · obtain ⟨ha1, ha2⟩ := route_response_no_summary st s (pyStrip cur) accText true
        obtain ⟨hb1, hb2⟩ :=
          route_response_no_summary (route_response st s (pyStrip cur) accText true).1 s accText accText false
        cases hh : lookupA (route_response (route_response st s (pyStrip cur) accText true).1 s accText accText false).1.histories s with
        | none => constructor <;> simp [hh, List.countP_append, ha1, ha2, hb1, hb2]
        | some hl =>
          constructor <;>
            simp [hh, List.countP_append, ha1, ha2, hb1, hb2, isModelCreateFor, isConfirmedSystemAppend]

theorem pwm_no_summary (st : AgentState) (s : String) (env : SpeechEnv) :
    (process_websocket_message st s env).2.countP (isModelCreateFor s) = 0 ∧
    (process_websocket_message st s env).2.countP (isConfirmedSystemAppend s) = 0 := by
  obtain ⟨payload, transcribe, ai⟩ := env
  unfold process_websocket_message
  cases payload with
  | none => exact ⟨rfl, rfl⟩
  | some p =>
    by_cases hp : p = ""
    · simp only [hp, if_pos rfl]
      exact ⟨rfl, rfl⟩
    · simp only [hp, if_false]
      cases transcribe with
      | toolError => simp [isModelCreateFor, isConfirmedSystemAppend]
      | parseError => simp [isModelCreateFor, isConfirmedSystemAppend]
      | reply status text =>
        by_cases hs : status = "success"
        · simp only [hs, ne_eq, not_true_eq_false, if_false]
          by_cases ht : text = ""
          · simp only [ht, if_pos rfl]
            simp [isModelCreateFor, isConfirmedSystemAppend]
          · simp only [ht, if_false]
            cases ai with
            | toolError => simp [isModelCreateFor, isConfirmedSystemAppend]
            | parseError => simp [isModelCreateFor, isConfirmedSystemAppend]
            | reply aStatus stream_url httpStatus events =>
              by_cases ha : aStatus = "streaming_url_generated"
              · simp only [ha, ne_eq, not_true_eq_false, if_false]
                by_cases hu : stream_url = ""
                · simp only [hu, if_pos rfl]
                  simp [isModelCreateFor, isConfirmedSystemAppend]
                · simp only [hu, if_false]
                  by_cases hh : httpStatus = 200
                  · simp only [hh, ne_eq, not_true_eq_false, if_false]
                    obtain ⟨h1, h2⟩ := sseLoop_no_summary s events "" "" { st with histories := insertA st.histories s ((lookupA st.histories s).getD [] ++ [⟨"user", text⟩]) }
                    constructor <;>
                      simp [List.countP_append, h1, h2, isModelCreateFor, isConfirmedSystemAppend]
                  · simp only [hh, ne_eq, not_false_eq_true, if_true]
                    simp [isModelCreateFor, isConfirmedSystemAppend]
              · simp only [ha, ne_eq, not_false_eq_true, if_true]
                simp [isModelCreateFor, isConfirmedSystemAppend]
        · simp only [hs, ne_eq, not_false_eq_true, if_true]
          simp [isModelCreateFor, isConfirmedSystemAppend]

theorem map_const_false_ne_some_true (x : Option Bool) :
    (x.map fun _ => false) ≠ some true := by
  cases x <;> simp

theorem setFlagFalse_not_true (st : AgentState) (s : String) :
    lookupA (st.setFlag s false).flags s ≠ some true := by
  show lookupA (updateA st.flags s false) s ≠ some true
  rw [lookupA_updateA_self]
  exact map_const_false_ne_some_true _

theorem handleLoopEvent_terminal_not_true (st : AgentState) (s : String) (e : WSEvent)
    (he : (∃ elig reply, e = WSEvent.callEnded elig reply) ∨ e = WSEvent.connClosed ∨
          e = WSEvent.handlerError) :
    lookupA (handleLoopEvent st s e).1.flags s ≠ some true := by
  rcases he with ⟨elig, reply, rfl⟩ | rfl | rfl
  · simp only [handleLoopEvent]
    cases hh : lookupA st.histories s with
    | some hl =>
      rw [generate_conversation_summary_state]
      exact setFlagFalse_not_true _ s
    | none =>
      rw [generate_conversation_summary_state]
      exact setFlagFalse_not_true _ s
  · exact setFlagFalse_not_true st s
  · exact setFlagFalse_not_true st s

theorem sessionLoop_notActive (s : String) (events : List WSEvent) (st : AgentState)
    (h : lookupA st.flags s ≠ some true) : sessionLoop s events st = (st, []) := by
  cases events with
  | nil => rfl
  | cons e rest => simp only [sessionLoop]

theorem sessionLoop_step (s : String) (e : WSEvent) (rest : List WSEvent) (st : AgentState)
    (hf : lookupA st.flags s = some true) :
    sessionLoop s (e :: rest) st
      = ((sessionLoop s rest (handleLoopEvent st s e).1).1,
         (handleLoopEvent st s e).2 ++ (sessionLoop s rest (handleLoopEvent st s e).1).2) := by
  simp only [sessionLoop, hf]

theorem sessionLoop_append (s : String) (b : List WSEvent) (a : List WSEvent) :
    ∀ st : AgentState, lookupA (sessionLoop s a st).1.flags s = some true →
    sessionLoop s (a ++ b) st
      = ((sessionLoop s b (sessionLoop s a st).1).1,
         (sessionLoop s a st).2 ++ (sessionLoop s b (sessionLoop s a st).1).2) := by
  induction a with
  | nil => intro st h; simp [sessionLoop]
  | cons e rest ih =>
    intro st h
    cases hf : lookupA st.flags s with
    | none =>
      rw [sessionLoop_notActive s (e :: rest) st (by simp [hf])] at h
      exact absurd h (by simp [hf])
    | some bb =>
      cases bb with
      | false =>
        rw [sessionLoop_notActive s (e :: rest) st (by simp [hf])] at h
        exact absurd h (by simp [hf])
      | true =>
        rw [sessionLoop_step s e rest st hf] at h
        have hstep1 : sessionLoop s ((e :: rest) ++ b) st
            = ((sessionLoop s (rest ++ b) (handleLoopEvent st s e).1).1,
               (handleLoopEvent st s e).2 ++
                 (sessionLoop s (rest ++ b) (handleLoopEvent st s e).1).2) := by
          rw [List.cons_append]
          exact sessionLoop_step s e (rest ++ b) st hf
        rw [hstep1, sessionLoop_step s e rest st hf, ih _ h]
        simp [List.append_assoc]

theorem sessionLoop_active_no_summary (s : String) (events : List WSEvent) :
    ∀ st : AgentState, lookupA (sessionLoop s events st).1.flags s = some true →
    (sessionLoop s events st).2.countP (isModelCreateFor s) = 0 ∧
    (sessionLoop s events st).2.countP (isConfirmedSystemAppend s) = 0 := by
  induction events with
  | nil => intro st h; exact ⟨rfl, rfl⟩
  | cons e rest ih =>
    intro st h
    cases hf : lookupA st.flags s with
    | none =>
      rw [sessionLoop_notActive s (e :: rest) st (by simp [hf])]
      exact ⟨rfl, rfl⟩
    | some bb =>
      cases bb with
      | false =>
        rw [sessionLoop_notActive s (e :: rest) st (by simp [hf])]
        exact ⟨rfl, rfl⟩
      | true =>
        rw [sessionLoop_step s e rest st hf] at h ⊢
        by_cases hce : ∃ elig reply, e = WSEvent.callEnded elig reply
        · obtain ⟨elig, reply, rfl⟩ := hce
          refine absurd h ?_
          rw [sessionLoop_notActive s rest _
            (handleLoopEvent_terminal_not_true st s _ (Or.inl ⟨elig, reply, rfl⟩))]
          exact handleLoopEvent_terminal_not_true st s _ (Or.inl ⟨elig, reply, rfl⟩)
        · obtain ⟨hi1, hi2⟩ := ih _ h
          have he : (handleLoopEvent st s e).2.countP (isModelCreateFor s) = 0 ∧
              (handleLoopEvent st s e).2.countP (isConfirmedSystemAppend s) = 0 := by
            cases e with
            | speech env => exact pwm_no_summary st s env
            | callStarted streamSid =>
              constructor <;>
                simp [handleLoopEvent, isModelCreateFor, isConfirmedSystemAppend]
            | callEnded elig reply => exact absurd ⟨elig, reply, rfl⟩ hce
            | malformedJson => exact ⟨rfl, rfl⟩
            | connClosed => exact ⟨rfl, rfl⟩
            | handlerError => exact ⟨rfl, rfl⟩
          constructor <;> simp [List.countP_append, he.1, he.2, hi1, hi2]

/-! ## Concrete states used by witnesses and counterexamples -/

/-- A one-session state: registered, active, open stream, empty history entry. -/
def demoState : AgentState := ⟨["s"], [("s", true)], [("s", true)], [("s", [])], [("s", "req")], []⟩

/-- Like `demoState` but with one transcribed turn already in the history. -/
def histState : AgentState :=
  ⟨["s"], [("s", true)], [("s", true)], [("s", [⟨"user", "hi"⟩])], [("s", "req")], []⟩

/-- Registered and active but with no conversation-history entry. -/
def noHistState : AgentState := ⟨["s"], [("s", true)], [("s", true)], [], [], []⟩

/-- Registered but already inactive. -/
def inactiveState : AgentState := ⟨["s"], [("s", false)], [("s", true)], [], [], []⟩

/-- Registered, active, but the stored websocket's peer no longer accepts sends. -/
def sendFailState : AgentState := ⟨["s"], [("s", true)], [("s", false)], [], [], []⟩

/-- The empty agent state. -/
def emptyState : AgentState := ⟨[], [], [], [], [], []⟩

/-- A state holding only a leftover `session_contexts` entry. -/
def contextOnlyState : AgentState := ⟨[], [], [], [], [("s", "ctx")], []⟩

/-- The fragment sequence of the spec's chunker example. -/
def demoFrags : List String := ["Hel", "lo, ", "world.", " Bye"]

/-- Its parsed SSE chunk events. -/
def demoEvents : List SSEEvent := demoFrags.map SSEEvent.chunk

/-! ## Claims -/

/-- C1 (counterexample): on the fragments `["Hel", "lo, ", "world.", " Bye"]`
the chunker does NOT emit "Hello, world." as one mid-stream sentence: the
sentence-end pattern `[,.!?]\s*$` already fires on the comma of "Hello, ",
so the sentences routed mid-stream are "Hello," and "world.", and the ones
routed over the whole stream are "Hello,", "world.", "Bye". -/
theorem sentence_chunker_comma_counterexample :
    sentSentences "s" (sseLoop "s" demoEvents "" "" demoState).2 = ["Hello,", "world."] ∧
    sentSentences "s" (sseLoop "s" (demoEvents ++ [SSEEvent.completed]) "" "" demoState).2
      = ["Hello,", "world.", "Bye"] ∧
    ¬ "Hello, world." ∈ sentSentences "s"
        (sseLoop "s" (demoEvents ++ [SSEEvent.completed]) "" "" demoState).2 := by
  refine ⟨by decide, by decide, by decide⟩

/-- C1 (amended): on the example fragments the chunker emits "Hello," and
"world." as completed sentences mid-stream (commas also end sentences) and
"Bye" as the final trailing chunk at stream end; and for every
punctuation-free fragment sequence whose concatenation is nonempty after
stripping whitespace, it emits exactly one chunk — the stripped
concatenation — at stream end, and nothing mid-stream. -/
theorem sentence_chunker_amended :
    (sentSentences "s" (sseLoop "s" demoEvents "" "" demoState).2 = ["Hello,", "world."]) ∧
    (sentSentences "s" (sseLoop "s" (demoEvents ++ [SSEEvent.completed]) "" "" demoState).2
      = ["Hello,", "world.", "Bye"]) ∧
    (∀ (frags : List String) (sid : String) (st : AgentState),
      healthySession st sid → noPunct frags → pyStrip (concatS frags) ≠ "" →
      sentSentences sid (sseLoop sid (frags.map SSEEvent.chunk ++ [SSEEvent.completed]) "" "" st).2
        = [pyStrip (concatS frags)] ∧
      sentSentences sid (sseLoop sid (frags.map SSEEvent.chunk) "" "" st).2 = []) := by
  refine ⟨by decide, by decide, ?_⟩
  intro frags sid st hh hn hne
  have hemp : ∀ c ∈ ("" : String).data, isSentencePunct c = false := by
    intro c hc
    exact absurd hc (by simp [show ("" : String).data = [] from rfl])
  obtain ⟨h1, h2⟩ := sseLoop_noPunct sid st hh frags hn "" "" hemp
  have happ : ("" : String) ++ concatS frags = concatS frags := by simp
  rw [happ] at h1
  rw [h1, if_neg hne]
  exact ⟨rfl, h2⟩

/-- C1 (witness): the amended universal clause at the concrete
punctuation-free fragments `["ab ", "cd"]` on a healthy session. -/
theorem sentence_chunker_amended_witness :
    sentSentences "s" (sseLoop "s" (["ab ", "cd"].map SSEEvent.chunk ++ [SSEEvent.completed])
        "" "" demoState).2 = [pyStrip (concatS ["ab ", "cd"])] ∧
    sentSentences "s" (sseLoop "s" (["ab ", "cd"].map SSEEvent.chunk) "" "" demoState).2 = [] :=
  sentence_chunker_amended.2.2 ["ab ", "cd"] "s" demoState (by decide) (by decide) (by decide)

/-- C2 (counterexample): in the per-call streaming flow a sentence completed
before the stream's `error` marker has already been routed to the caller's
stream — the partial reply "One." is not discarded. -/
theorem streaming_error_partial_routed_counterexample :
    sentSentences "s" (sseLoop "s" [SSEEvent.chunk "One.", SSEEvent.errorEv "boom"]
        "" "" demoState).2 = ["One."] ∧
    (["One."] : List String) ≠ [] := by
  refine ⟨by decide, by decide⟩

/-- C2 (amended): the single-shot flow fails on a non-success transport
status before consuming events and on the stream's `error` marker, and its
result is independent of the partial fragments received before the failure
(they are discarded); the per-call streaming flow stops consuming at the
`error` marker, routing no final response — but sentence chunks completed
before the error have already been routed. -/
theorem streaming_failure_amended :
    (∀ (httpStatus : Nat) (events : List SSEEvent), httpStatus ≠ 200 →
      (single_response_stream httpStatus events).isErrorReply = true) ∧
    (∀ (frags : List String) (m : String) (rest : List SSEEvent) (accText : String),
      single_response_go (frags.map SSEEvent.chunk ++ SSEEvent.errorEv m :: rest) accText
        = FlowResult.errorReply ("Streaming error: " ++ m)) ∧
    (∀ (sid : String) (frags : List String) (m : String) (rest : List SSEEvent)
        (accText cur : String) (st : AgentState),
      sseLoop sid (frags.map SSEEvent.chunk ++ SSEEvent.errorEv m :: rest) accText cur st
        = sseLoop sid (frags.map SSEEvent.chunk) accText cur st ∧
      (sseLoop sid (frags.map SSEEvent.chunk ++ SSEEvent.errorEv m :: rest) accText cur st).2.countP
          (isFinalSendFor sid) = 0) := by
  refine ⟨?_, ?_, ?_⟩
  · intro httpStatus events h
    simp [single_response_stream, h, FlowResult.isErrorReply]
  · intro frags m rest accText
    exact single_response_go_error frags m rest accText
  · intro sid frags m rest accText cur st
    have h := sseLoop_stops_at_error sid frags m rest accText cur st
    refine ⟨h, ?_⟩
    rw [h]
    exact sseLoop_chunks_no_final sid frags accText cur st

/-- C2 (witness): concrete instances of all three amended clauses. -/
theorem streaming_failure_amended_witness :
    (single_response_stream 500 [SSEEvent.chunk "Hi"]).isErrorReply = true ∧
    single_response_go ([ "Hi" ].map SSEEvent.chunk ++ SSEEvent.errorEv "boom" :: []) ""
      = FlowResult.errorReply ("Streaming error: " ++ "boom") ∧
    sseLoop "s" ([ "One." ].map SSEEvent.chunk ++ SSEEvent.errorEv "boom" :: []) "" "" demoState
      = sseLoop "s" ([ "One." ].map SSEEvent.chunk) "" "" demoState :=
  ⟨streaming_failure_amended.1 500 [SSEEvent.chunk "Hi"] (by decide),
   streaming_failure_amended.2.1 ["Hi"] "boom" [] "",
   (streaming_failure_amended.2.2 "s" ["One."] "boom" [] "" "" demoState).1⟩

/-- C7: routing to a session id that is absent from the registry, or present
with `is_active` false, is a no-op: the state (hence the registry) is
unchanged and no effect — in particular no send and no error — occurs. -/
theorem router_absent_or_inactive_noop (st : AgentState) (sid : String) (r a : String) (m : Bool) :
    (containsS st.registry sid = false → route_response st sid r a m = (st, [])) ∧
    (containsS st.registry sid = true → lookupA st.flags sid = some false →
      route_response st sid r a m = (st, [])) := by
  constructor
  · intro h
    simp [route_response, AgentState.sessionActive, h]
  · intro h1 h2
    simp [route_response, AgentState.sessionActive, h1, h2]

/-- C7 (witness): both clauses at concrete states. -/
theorem router_absent_or_inactive_noop_witness :
    route_response emptyState "s" "x" "y" true = (emptyState, []) ∧
    route_response inactiveState "s" "x" "y" true = (inactiveState, []) :=
  ⟨(router_absent_or_inactive_noop emptyState "s" "x" "y" true).1 (by decide),
   (router_absent_or_inactive_noop inactiveState "s" "x" "y" true).2 (by decide) (by decide)⟩

/-- C8: when a send fails because the transport is closed, the router only
flips `is_active` to false: the connection entry stays in the map untouched
(the router closes nothing), registry, histories and contexts are unchanged,
other sessions' flags are unchanged, and no cleanup or close effect occurs. -/
theorem router_send_failure_defers_cleanup (st : AgentState) (sid : String) (r a : String)
    (m : Bool) (h1 : containsS st.registry sid = true) (h2 : lookupA st.flags sid = some true)
    (h3 : lookupA st.connections sid = some false) :
    route_response st sid r a m = (st.setFlag sid false, []) ∧
    (route_response st sid r a m).1.connections = st.connections ∧
    (route_response st sid r a m).1.registry = st.registry ∧
    (route_response st sid r a m).1.histories = st.histories ∧
    (route_response st sid r a m).1.contexts = st.contexts ∧
    lookupA (route_response st sid r a m).1.flags sid = some false ∧
    (∀ sid2, sid2 ≠ sid →
      lookupA (route_response st sid r a m).1.flags sid2 = lookupA st.flags sid2) ∧
    lookupA (route_response st sid r a m).1.connections sid = some false := by
  have hr : route_response st sid r a m = (st.setFlag sid false, []) := by
    simp [route_response, AgentState.sessionActive, h1, h2, h3]
  refine ⟨hr, ?_, ?_, ?_, ?_, ?_, ?_, ?_⟩ <;> rw [hr]
  · rfl
  · rfl
  · rfl
  · rfl
  · show lookupA (updateA st.flags sid false) sid = some false
    rw [lookupA_updateA_self, h2]
    rfl
  · intro sid2 hne
    exact lookupA_updateA_ne st.flags sid sid2 false hne
  · exact h3

/-- C8 (witness): the send-failure behaviour at a concrete closed-peer state. -/
theorem router_send_failure_defers_cleanup_witness :
    route_response sendFailState "s" "x" "y" true = (sendFailState.setFlag "s" false, []) ∧
    lookupA (route_response sendFailState "s" "x" "y" true).1.connections "s" = some false :=
  ⟨(router_send_failure_defers_cleanup sendFailState "s" "x" "y" true
      (by decide) (by decide) (by decide)).1,
   (router_send_failure_defers_cleanup sendFailState "s" "x" "y" true
      (by decide) (by decide) (by decide)).2.2.2.2.2.2.2⟩

/-- C9: a speech segment whose transcription succeeds with empty text is a
no-op after the transcription call: no generation call, no outbound send, no
history append, and the whole agent state is unchanged. -/
theorem empty_transcript_noop (st : AgentState) (sid : String) (p : String) (ai : AIReply)
    (hp : p ≠ "") :
    process_websocket_message st sid ⟨some p, TranscribeReply.reply "success" "", ai⟩
      = (st, [Effect.toolCall "transcribe_audio"]) := by
  simp [process_websocket_message, hp]

/-- C9 (witness): the empty-transcript no-op at a concrete state and payload. -/
theorem empty_transcript_noop_witness :
    process_websocket_message demoState "s"
        ⟨some "audio", TranscribeReply.reply "success" "", AIReply.toolError⟩
      = (demoState, [Effect.toolCall "transcribe_audio"]) :=
  empty_transcript_noop demoState "s" "audio" AIReply.toolError (by decide)

/-- C10: a `call_ended` event for a session with no conversation-history
entry appends no turn at all, makes no summarizer model call, and publishes
the "No conversation data available" notice to the presentation sink; the
histories map is left unchanged. -/
theorem call_ended_without_history_notice (st : AgentState) (sid : String) (elig : String)
    (reply : SummaryReply) (h : lookupA st.histories sid = none) :
    (handleLoopEvent st sid (WSEvent.callEnded elig reply)).1.histories = st.histories ∧
    (handleLoopEvent st sid (WSEvent.callEnded elig reply)).2.countP (isAppendFor sid) = 0 ∧
    (handleLoopEvent st sid (WSEvent.callEnded elig reply)).2.countP (isModelCreateFor sid) = 0 ∧
    Effect.publishUI ("Summary (" ++ takeChars 8 sid ++ ")") "No conversation data available"
      ∈ (handleLoopEvent st sid (WSEvent.callEnded elig reply)).2 := by
  have h2 : lookupA (st.setFlag sid false).histories sid = none := h
  refine ⟨?_, ?_, ?_, ?_⟩ <;>
    simp [handleLoopEvent, h, generate_conversation_summary, h2, AgentState.setFlag,
      isAppendFor, isModelCreateFor]

/-- C10 (witness): the no-history notice at a concrete state. -/
theorem call_ended_without_history_notice_witness :
    (handleLoopEvent noHistState "s" (WSEvent.callEnded "confirmed" (SummaryReply.ok "x"))).1.histories
      = noHistState.histories ∧
    Effect.publishUI ("Summary (" ++ takeChars 8 "s" ++ ")") "No conversation data available"
      ∈ (handleLoopEvent noHistState "s" (WSEvent.callEnded "confirmed" (SummaryReply.ok "x"))).2 :=
  ⟨(call_ended_without_history_notice noHistState "s" "confirmed" (SummaryReply.ok "x")
      (by decide)).1,
   (call_ended_without_history_notice noHistState "s" "confirmed" (SummaryReply.ok "x")
      (by decide)).2.2.2⟩

/-- Cleanup is a state no-op once all four per-session entries are gone. -/
theorem cleanup_session_noop (st : AgentState) (sid : String)
    (h1 : containsS st.registry sid = false) (h2 : lookupA st.connections sid = none)
    (h3 : lookupA st.histories sid = none) (h4 : lookupA st.contexts sid = none) :
    cleanup_session st sid = (st, [Effect.cleanupRun sid]) := by
  obtain ⟨reg, fl, co, hi, cx, ah⟩ := st
  replace h1 : containsS reg sid = false := h1
  replace h2 : lookupA co sid = none := h2
  replace h3 : lookupA hi sid = none := h3
  replace h4 : lookupA cx sid = none := h4
  simp [cleanup_session, h1, h2, eraseA_of_lookup_none _ _ h2,
    eraseA_of_lookup_none _ _ h3, eraseA_of_lookup_none _ _ h4]

/-- C5 (counterexample): a state whose registry, connection and history
entries for "s" are all absent but whose contexts map still holds "s" — as
the claim's hypothesis allows — is changed by cleanup (the leftover context
entry is deleted), so cleanup under that hypothesis is not a state no-op. -/
theorem cleanup_context_counterexample :
    containsS contextOnlyState.registry "s" = false ∧
    lookupA contextOnlyState.connections "s" = none ∧
    lookupA contextOnlyState.histories "s" = none ∧
    (cleanup_session contextOnlyState "s").1 ≠ contextOnlyState := by
  refine ⟨by decide, by decide, by decide, by decide⟩

/-- C5 (amended): invoking cleanup for a session id whose registry,
connection, history AND context entries have all been removed is a no-op
that changes no map and performs no close; and cleanup composed with cleanup
for the same session id equals a single cleanup on the state, for every
state. -/
theorem cleanup_idempotent_amended :
    (∀ (st : AgentState) (sid : String),
      containsS st.registry sid = false → lookupA st.connections sid = none →
      lookupA st.histories sid = none → lookupA st.contexts sid = none →
      cleanup_session st sid = (st, [Effect.cleanupRun sid])) ∧
    (∀ (st : AgentState) (sid : String),
      (cleanup_session (cleanup_session st sid).1 sid).1 = (cleanup_session st sid).1) := by
  constructor
  · intro st sid h1 h2 h3 h4
    exact cleanup_session_noop st sid h1 h2 h3 h4
  · intro st sid
    have h1 : containsS (cleanup_session st sid).1.registry sid = false := by
      rw [cleanup_session_registry]
      by_cases hr : containsS st.registry sid = true
      · rw [if_pos hr]
        exact containsS_eraseS_self _ _
      · rw [if_neg hr]
        exact Bool.not_eq_true _ ▸ Bool.eq_false_iff.mpr hr
    have h2 : lookupA (cleanup_session st sid).1.connections sid = none := by
      rw [cleanup_session_connections]
      exact lookupA_eraseA_self _ _
    have h3 : lookupA (cleanup_session st sid).1.histories sid = none := by
      rw [cleanup_session_histories]
      exact lookupA_eraseA_self _ _
    have h4 : lookupA (cleanup_session st sid).1.contexts sid = none := by
      rw [cleanup_session_contexts]
      exact lookupA_eraseA_self _ _
    rw [cleanup_session_noop _ sid h1 h2 h3 h4]

/-- C5 (witness): the fully-removed no-op clause at the empty state, and the
composition clause at a fully-populated state. -/
theorem cleanup_idempotent_amended_witness :
    cleanup_session emptyState "s" = (emptyState, [Effect.cleanupRun "s"]) ∧
    (cleanup_session (cleanup_session demoState "s").1 "s").1 = (cleanup_session demoState "s").1 :=
  ⟨cleanup_idempotent_amended.1 emptyState "s" (by decide) (by decide) (by decide) (by decide),
   cleanup_idempotent_amended.2 demoState "s"⟩

/-- C6: a call initiation whose `make_call` step fails — the tool reports an
error, or the parsed reply has a non-success status — returns an error
reply, leaves the registry and every per-session map without an entry for
the fresh session id (in fact entirely unchanged), and spawns no dispatcher
task. -/
theorem failed_placement_no_state (st : AgentState) (sid content : String) (connectOk : Bool)
    (h1 : containsS st.registry sid = false) (h2 : lookupA st.connections sid = none)
    (h3 : lookupA st.histories sid = none) (h4 : lookupA st.contexts sid = none) :
    ((handle_websocket_flow st sid content MakeCallReply.toolError connectOk).2.2.isErrorReply = true ∧
     (handle_websocket_flow st sid content MakeCallReply.toolError connectOk).1.registry = st.registry ∧
     containsS (handle_websocket_flow st sid content MakeCallReply.toolError connectOk).1.registry sid = false ∧
     lookupA (handle_websocket_flow st sid content MakeCallReply.toolError connectOk).1.connections sid = none ∧
     lookupA (handle_websocket_flow st sid content MakeCallReply.toolError connectOk).1.histories sid = none ∧
     lookupA (handle_websocket_flow st sid content MakeCallReply.toolError connectOk).1.contexts sid = none ∧
     (handle_websocket_flow st sid content MakeCallReply.toolError connectOk).2.1.countP (isSpawnFor sid) = 0) ∧
    (∀ status message csid wurl, status ≠ "success" →
     (handle_websocket_flow st sid content (MakeCallReply.reply status message csid wurl) connectOk).2.2.isErrorReply = true ∧
     (handle_websocket_flow st sid content (MakeCallReply.reply status message csid wurl) connectOk).1.registry = st.registry ∧
     containsS (handle_websocket_flow st sid content (MakeCallReply.reply status message csid wurl) connectOk).1.registry sid = false ∧
     lookupA (handle_websocket_flow st sid content (MakeCallReply.reply status message csid wurl) connectOk).1.connections sid = none ∧
     lookupA (handle_websocket_flow st sid content (MakeCallReply.reply status message csid wurl) connectOk).1.histories sid = none ∧
     lookupA (handle_websocket_flow st sid content (MakeCallReply.reply status message csid wurl) connectOk).1.contexts sid = none ∧
     (handle_websocket_flow st sid content (MakeCallReply.reply status message csid wurl) connectOk).2.1.countP (isSpawnFor sid) = 0) := by
  constructor
  · refine ⟨rfl, rfl, h1, h2, h3, h4, ?_⟩
    simp [handle_websocket_flow, isSpawnFor]
  · intro status message csid wurl hs
    have hred : handle_websocket_flow st sid content (MakeCallReply.reply status message csid wurl) connectOk
        = ({ st with agent_history := st.agent_history ++ [⟨"websocket_conversation", content, none, some sid⟩] },
           [Effect.publishUI "WrapperAgent" "Initiating call to +12132841509...",
            Effect.toolCall "make_call",
            Effect.publishUI "WrapperAgent" ("Error: " ++ message)],
           FlowResult.errorReply message) := by
      simp [handle_websocket_flow, hs]
    rw [hred]
    refine ⟨rfl, rfl, h1, h2, h3, h4, ?_⟩
    simp [isSpawnFor]

/-- C6 (witness): both failure shapes at a concrete fresh state. -/
theorem failed_placement_no_state_witness :
    (handle_websocket_flow emptyState "s" "call bob" MakeCallReply.toolError true).2.2.isErrorReply
      = true ∧
    containsS (handle_websocket_flow emptyState "s" "call bob"
        (MakeCallReply.reply "failed" "busy" "c" "ws://x") true).1.registry "s" = false ∧
    (handle_websocket_flow emptyState "s" "call bob"
        (MakeCallReply.reply "failed" "busy" "c" "ws://x") true).2.1.countP (isSpawnFor "s") = 0 :=
  ⟨(failed_placement_no_state emptyState "s" "call bob" true
      (by decide) (by decide) (by decide) (by decide)).1.1,
   ((failed_placement_no_state emptyState "s" "call bob" true
      (by decide) (by decide) (by decide) (by decide)).2 "failed" "busy" "c" "ws://x"
      (by decide)).2.2.1,
   ((failed_placement_no_state emptyState "s" "call bob" true
      (by decide) (by decide) (by decide) (by decide)).2 "failed" "busy" "c" "ws://x"
      (by decide)).2.2.2.2.2.2⟩

/-- C4: the session activity flag is monotone — no modelled operation ever
turns `is_active` back to true after creation (`some true` afterwards
implies `some true` before) and `some false` is absorbing, so the flag
transitions true→false at most once along any run; and for a session that
starts registered with a stored stream, a dispatcher run over any event
sequence performs the teardown effect exactly once: one cleanup invocation,
one stream close, and afterwards the registry, connection, history, and
context entries are gone. -/
theorem is_active_monotone_teardown_once (st : AgentState) (sid : String)
    (events : List WSEvent) (r a : String) (m : Bool) :
    flagKept sid st (route_response st sid r a m).1 ∧
    flagKept sid st (cleanup_session st sid).1 ∧
    flagKept sid st (process_websocket_session st sid events).1 ∧
    (containsS st.registry sid = true → lookupA st.connections sid ≠ none →
      (process_websocket_session st sid events).2.countP (isCleanupFor sid) = 1 ∧
      (process_websocket_session st sid events).2.countP (isCloseFor sid) = 1 ∧
      containsS (process_websocket_session st sid events).1.registry sid = false ∧
      lookupA (process_websocket_session st sid events).1.connections sid = none ∧
      lookupA (process_websocket_session st sid events).1.histories sid = none ∧
      lookupA (process_websocket_session st sid events).1.contexts sid = none) := by
  refine ⟨flagKept_route sid sid st r a m, flagKept_cleanup sid sid st,
    flagKept_process_websocket_session sid sid st events, ?_⟩
  intro h1 h2
  obtain ⟨c, hc⟩ : ∃ c, lookupA st.connections sid = some c := by
    cases hcc : lookupA st.connections sid with
    | none => exact absurd hcc h2
    | some c => exact ⟨c, rfl⟩
  have hmain : process_websocket_session st sid events
      = ((cleanup_session ((sessionLoop sid events st).1.setFlag sid false) sid).1,
         (sessionLoop sid events st).2 ++
           (cleanup_session ((sessionLoop sid events st).1.setFlag sid false) sid).2) := by
    simp [process_websocket_session, h1, hc]
  obtain ⟨hcn, hcl, hcc⟩ := sessionLoop_connSafe sid events st h2
  have hconn2 : lookupA ((sessionLoop sid events st).1.setFlag sid false).connections sid
      = some c := by
    show lookupA (sessionLoop sid events st).1.connections sid = some c
    rw [hcn, hc]
  have hce : (cleanup_session ((sessionLoop sid events st).1.setFlag sid false) sid).2
      = [Effect.cleanupRun sid, Effect.wsClose sid] := by
    rw [cleanup_session_effects, hconn2]
  refine ⟨?_, ?_, ?_, ?_, ?_, ?_⟩
  · rw [hmain]
    show ((sessionLoop sid events st).2 ++ _).countP (isCleanupFor sid) = 1
    rw [List.countP_append, hcl, hce]
    simp [isCleanupFor]
  · rw [hmain]
    show ((sessionLoop sid events st).2 ++ _).countP (isCloseFor sid) = 1
    rw [List.countP_append, hcc, hce]
    simp [isCloseFor]
  · rw [hmain]
    show containsS (cleanup_session ((sessionLoop sid events st).1.setFlag sid false) sid).1.registry sid = false
    rw [cleanup_session_registry]
    by_cases hr : containsS ((sessionLoop sid events st).1.setFlag sid false).registry sid = true
    · rw [if_pos hr]
      exact containsS_eraseS_self _ _
    · rw [if_neg hr]
      exact Bool.eq_false_iff.mpr hr
  · rw [hmain]
    show lookupA (cleanup_session ((sessionLoop sid events st).1.setFlag sid false) sid).1.connections sid = none
    rw [cleanup_session_connections]
    exact lookupA_eraseA_self _ _
  · rw [hmain]
    show lookupA (cleanup_session ((sessionLoop sid events st).1.setFlag sid false) sid).1.histories sid = none
    rw [cleanup_session_histories]
    exact lookupA_eraseA_self _ _
  · rw [hmain]
    show lookupA (cleanup_session ((sessionLoop sid events st).1.setFlag sid false) sid).1.contexts sid = none
    rw [cleanup_session_contexts]
    exact lookupA_eraseA_self _ _

/-- C4 (witness): the monotonicity clauses and the exactly-once teardown at
a concrete two-event run (the second `call_ended` observes an already-ended
session). -/
theorem is_active_monotone_teardown_once_witness :
    (process_websocket_session histState "s"
        [WSEvent.callEnded "confirmed" (SummaryReply.ok "x"),
         WSEvent.callEnded "confirmed" (SummaryReply.ok "x")]).2.countP (isCleanupFor "s") = 1 ∧
    (process_websocket_session histState "s"
        [WSEvent.callEnded "confirmed" (SummaryReply.ok "x"),
         WSEvent.callEnded "confirmed" (SummaryReply.ok "x")]).2.countP (isCloseFor "s") = 1 ∧
    containsS (process_websocket_session histState "s"
        [WSEvent.callEnded "confirmed" (SummaryReply.ok "x"),
         WSEvent.callEnded "confirmed" (SummaryReply.ok "x")]).1.registry "s" = false :=
  ⟨((is_active_monotone_teardown_once histState "s"
      [WSEvent.callEnded "confirmed" (SummaryReply.ok "x"),
       WSEvent.callEnded "confirmed" (SummaryReply.ok "x")] "x" "y" true).2.2.2
      (by decide) (by decide)).1,
   ((is_active_monotone_teardown_once histState "s"
      [WSEvent.callEnded "confirmed" (SummaryReply.ok "x"),
       WSEvent.callEnded "confirmed" (SummaryReply.ok "x")] "x" "y" true).2.2.2
      (by decide) (by decide)).2.1,
   ((is_active_monotone_teardown_once histState "s"
      [WSEvent.callEnded "confirmed" (SummaryReply.ok "x"),
       WSEvent.callEnded "confirmed" (SummaryReply.ok "x")] "x" "y" true).2.2.2
      (by decide) (by decide)).2.2.1⟩

/-- The `call_ended eligibility=confirmed` handler on a session with a
history entry: exactly one system turn containing "confirmed" is appended,
exactly one summarizer model call is made, and its snapshot is the history
at that moment (the entry plus the new system turn). -/
theorem handler_callEnded_counts (L1 : AgentState) (sid : String) (reply : SummaryReply)
    (hl : List Turn) (hhist : lookupA L1.histories sid = some hl) :
    (handleLoopEvent L1 sid (WSEvent.callEnded "confirmed" reply)).2.countP
        (isConfirmedSystemAppend sid) = 1 ∧
    (handleLoopEvent L1 sid (WSEvent.callEnded "confirmed" reply)).2.countP
        (isModelCreateFor sid) = 1 ∧
    Effect.modelCreate sid (hl ++ [⟨"system", "Eligibility check result: confirmed"⟩])
      ∈ (handleLoopEvent L1 sid (WSEvent.callEnded "confirmed" reply)).2 := by
  have hcs2 : containsSub "confirmed" "Eligibility check result: confirmed" = true := by decide
  cases reply with
  | ok summary =>
    by_cases hsum : summary = ""
    all_goals
      refine ⟨?_, ?_, ?_⟩ <;>
        simp [handleLoopEvent, hhist, generate_conversation_summary, AgentState.setFlag,
          lookupA_insertA_self, hsum, List.countP_append, isConfirmedSystemAppend,
          isModelCreateFor, hcs2]
  | raised msg =>
    refine ⟨?_, ?_, ?_⟩ <;>
      simp [handleLoopEvent, hhist, generate_conversation_summary, AgentState.setFlag,
        lookupA_insertA_self, List.countP_append, isConfirmedSystemAppend,
        isModelCreateFor, hcs2]

/-- C3 (counterexample): a session that receives `call_ended` with
eligibility "confirmed" but has no conversation-history entry appends no
system turn at all — not exactly one, as the claim states. -/
theorem call_ended_no_history_counterexample :
    (process_websocket_session noHistState "s"
        [WSEvent.callEnded "confirmed" (SummaryReply.ok "sum")]).2.countP
      (isConfirmedSystemAppend "s") = 0 ∧
    ¬ (process_websocket_session noHistState "s"
        [WSEvent.callEnded "confirmed" (SummaryReply.ok "sum")]).2.countP
      (isConfirmedSystemAppend "s") = 1 := by
  refine ⟨by decide, by decide⟩

/-- C3 (amended): for a registered session with a stored stream whose
dispatcher is still active after the events preceding the `call_ended`
event, and which has a conversation-history entry at that moment, the run
appends exactly one system turn containing "confirmed", invokes the
summarizer's model call exactly once — with the history snapshot at that
moment — and invokes teardown exactly once. -/
theorem call_ended_confirmed_amended (st : AgentState) (sid : String)
    (pre post : List WSEvent) (reply : SummaryReply) (hl : List Turn)
    (hreg : containsS st.registry sid = true)
    (hconn : lookupA st.connections sid ≠ none)
    (hact : lookupA (sessionLoop sid pre st).1.flags sid = some true)
    (hhist : lookupA (sessionLoop sid pre st).1.histories sid = some hl) :
    (process_websocket_session st sid
        (pre ++ WSEvent.callEnded "confirmed" reply :: post)).2.countP
      (isConfirmedSystemAppend sid) = 1 ∧
    (process_websocket_session st sid
        (pre ++ WSEvent.callEnded "confirmed" reply :: post)).2.countP
      (isModelCreateFor sid) = 1 ∧
    Effect.modelCreate sid (hl ++ [⟨"system", "Eligibility check result: confirmed"⟩])
      ∈ (process_websocket_session st sid
          (pre ++ WSEvent.callEnded "confirmed" reply :: post)).2 ∧
    (process_websocket_session st sid
        (pre ++ WSEvent.callEnded "confirmed" reply :: post)).2.countP
      (isCleanupFor sid) = 1 := by
  obtain ⟨c, hc⟩ : ∃ c, lookupA st.connections sid = some c := by
    cases hcc : lookupA st.connections sid with
    | none => exact absurd hcc hconn
    | some c => exact ⟨c, rfl⟩
  have hmain : process_websocket_session st sid (pre ++ WSEvent.callEnded "confirmed" reply :: post)
      = ((cleanup_session ((sessionLoop sid (pre ++ WSEvent.callEnded "confirmed" reply :: post) st).1.setFlag sid false) sid).1,
         (sessionLoop sid (pre ++ WSEvent.callEnded "confirmed" reply :: post) st).2 ++
           (cleanup_session ((sessionLoop sid (pre ++ WSEvent.callEnded "confirmed" reply :: post) st).1.setFlag sid false) sid).2) := by
    simp [process_websocket_session, hreg, hc]
  have hterm := handleLoopEvent_terminal_not_true (sessionLoop sid pre st).1 sid
    (WSEvent.callEnded "confirmed" reply) (Or.inl ⟨"confirmed", reply, rfl⟩)
  have hpost : sessionLoop sid post
      (handleLoopEvent (sessionLoop sid pre st).1 sid (WSEvent.callEnded "confirmed" reply)).1
      = ((handleLoopEvent (sessionLoop sid pre st).1 sid (WSEvent.callEnded "confirmed" reply)).1, []) :=
    sessionLoop_notActive sid post _ hterm
  have hstepAll : sessionLoop sid (WSEvent.callEnded "confirmed" reply :: post) (sessionLoop sid pre st).1
      = ((handleLoopEvent (sessionLoop sid pre st).1 sid (WSEvent.callEnded "confirmed" reply)).1,
         (handleLoopEvent (sessionLoop sid pre st).1 sid (WSEvent.callEnded "confirmed" reply)).2) := by
    rw [sessionLoop_step sid _ post _ hact, hpost]
    simp
  have hFL : sessionLoop sid (pre ++ WSEvent.callEnded "confirmed" reply :: post) st
      = ((handleLoopEvent (sessionLoop sid pre st).1 sid (WSEvent.callEnded "confirmed" reply)).1,
         (sessionLoop sid pre st).2 ++
           (handleLoopEvent (sessionLoop sid pre st).1 sid (WSEvent.callEnded "confirmed" reply)).2) := by
    rw [sessionLoop_append sid (WSEvent.callEnded "confirmed" reply :: post) pre st hact, hstepAll]
  obtain ⟨hfc, hfcl, hfcc⟩ :=
    sessionLoop_connSafe sid (pre ++ WSEvent.callEnded "confirmed" reply :: post) st hconn
  have hconn2 : lookupA ((sessionLoop sid (pre ++ WSEvent.callEnded "confirmed" reply :: post) st).1.setFlag sid false).connections sid = some c := by
    show lookupA (sessionLoop sid (pre ++ WSEvent.callEnded "confirmed" reply :: post) st).1.connections sid = some c
    rw [hfc, hc]
  have hce : (cleanup_session ((sessionLoop sid (pre ++ WSEvent.callEnded "confirmed" reply :: post) st).1.setFlag sid false) sid).2
      = [Effect.cleanupRun sid, Effect.wsClose sid] := by
    rw [cleanup_session_effects, hconn2]
  obtain ⟨hm0, ha0⟩ := sessionLoop_active_no_summary sid pre st hact
  obtain ⟨hh1, hh2, hh3⟩ := handler_callEnded_counts (sessionLoop sid pre st).1 sid reply hl hhist
  refine ⟨?_, ?_, ?_, ?_⟩
  · rw [hmain, List.countP_append, hce, hFL, List.countP_append]
    simp only [ha0, hh1]
    simp [isConfirmedSystemAppend]
  · rw [hmain, List.countP_append, hce, hFL, List.countP_append]
    simp only [hm0, hh2]
    simp [isModelCreateFor]
  · rw [hmain, hFL]
    exact List.mem_append.mpr (Or.inl (List.mem_append.mpr (Or.inr hh3)))
  · rw [hmain, List.countP_append, hce, hFL]
    rw [show ((sessionLoop sid pre st).2 ++ (handleLoopEvent (sessionLoop sid pre st).1 sid (WSEvent.callEnded "confirmed" reply)).2) = (sessionLoop sid (pre ++ WSEvent.callEnded "confirmed" reply :: post) st).2 from by rw [hFL]]
    rw [hfcl]
    simp [isCleanupFor]

/-- C3 (witness): the amended claim at a concrete session whose history
holds one transcribed turn. -/
theorem call_ended_confirmed_amended_witness :
    (process_websocket_session histState "s"
        ([] ++ WSEvent.callEnded "confirmed" (SummaryReply.ok "sum") :: [])).2.countP
      (isConfirmedSystemAppend "s") = 1 ∧
    (process_websocket_session histState "s"
        ([] ++ WSEvent.callEnded "confirmed" (SummaryReply.ok "sum") :: [])).2.countP
      (isModelCreateFor "s") = 1 ∧
    Effect.modelCreate "s" ([⟨"user", "hi"⟩] ++ [⟨"system", "Eligibility check result: confirmed"⟩])
      ∈ (process_websocket_session histState "s"
          ([] ++ WSEvent.callEnded "confirmed" (SummaryReply.ok "sum") :: [])).2 ∧
    (process_websocket_session histState "s"
        ([] ++ WSEvent.callEnded "confirmed" (SummaryReply.ok "sum") :: [])).2.countP
      (isCleanupFor "s") = 1 :=
  call_ended_confirmed_amended histState "s" [] [] (SummaryReply.ok "sum") [⟨"user", "hi"⟩]
    (by decide) (by decide) (by decide) (by decide)
